import Mathlib

/-
Verification of the Applens_Formatize transformation pipelines.

The development shallowly embeds the repository's Python modules:
  * data_transformer.py  (strict "Applens" schema pipeline),
  * msm_transformer.py   (best-effort "MSM" schema pipeline),
  * jira_fetcher.py      (paginated remote fetch),
  * main_gui.py          (the API-mode wrapper around the fetcher).

Tables are modelled as a list of column names plus association-list rows;
pandas cell values are modelled by `Cell` (`na` is NaN/NaT).  External
effects (reading a file, the spreadsheet writer, the HTTP server, pandas
date parsing, `pd.to_numeric`) are passed in as explicit inputs.
-/

/- ------------------------------------------------------------------ -/
/- Python string primitives used by the column matching code.         -/
/- ------------------------------------------------------------------ -/

def subAt : List Char → List Char → Bool
  | [], _ => true
  | _ :: _, [] => false
  | a :: as, b :: bs => a == b && subAt as bs

def hasSub : List Char → List Char → Bool
  | [], needle => needle.isEmpty
  | a :: t, needle => subAt needle (a :: t) || hasSub t needle

/-- Python's `needle in hay` substring test. -/
def strContains (hay needle : String) : Bool := hasSub hay.data needle.data

def stripChars (l : List Char) : List Char :=
  ((l.dropWhile Char.isWhitespace).reverse.dropWhile Char.isWhitespace).reverse

/-- Python's `s.lower().strip()`, the normalization both loaders apply to headers. -/
def pynorm (s : String) : String := ⟨stripChars (s.data.map Char.toLower)⟩

/-- Python's `s.upper()`. -/
def pyUpper (s : String) : String := ⟨s.data.map Char.toUpper⟩

/- ------------------------------------------------------------------ -/
/- Cells (pandas values).                                             -/
/- ------------------------------------------------------------------ -/

inductive Cell where
  | na
  | str (s : String)
  | num (q : ℚ)
  deriving DecidableEq

/-- Python's `str(x)` on a cell; `str(nan)` is the text "nan". -/
def pyStr : Cell → String
  | Cell.na => "nan"
  | Cell.str s => s
  | Cell.num q => toString q

/- ------------------------------------------------------------------ -/
/- jira_fetcher.py: cursor pagination loop.                           -/
/- ------------------------------------------------------------------ -/

structure JiraResponse where
  status : Nat
  issues : List String
  nextPageToken : Option String
  deriving DecidableEq

inductive FetchOutcome where
  | aborted (status : Nat) (collected : List String)
  | finished (collected : List String)
  | exhausted (collected : List String)
  deriving DecidableEq

/-- The `while True` pagination loop of `fetch_jira_issues`, driven by the
finite list of responses the server would give to successive page requests.
`exhausted` means every provided response kept the loop going (the real loop
would request yet another page). -/
def fetch_loop : List JiraResponse → List String → FetchOutcome
  | [], acc => FetchOutcome.exhausted acc
  | r :: rest, acc =>
    if r.status ≠ 200 then FetchOutcome.aborted r.status acc
    else if r.issues = [] then FetchOutcome.finished acc
    else if r.nextPageToken = none then FetchOutcome.finished (acc ++ r.issues)
    else fetch_loop rest (acc ++ r.issues)

/-- Number of page requests the loop issues against the given response stream. -/
def pagesRequested : List JiraResponse → Nat
  | [] => 0
  | r :: rest =>
    if r.status ≠ 200 then 1
    else if r.issues = [] then 1
    else if r.nextPageToken = none then 1
    else 1 + pagesRequested rest

inductive FetchError where
  | missingCredentials
  | missingAuthors
  | apiError (status : Nat)
  | writeFailure
  deriving DecidableEq

inductive FetchResult where
  | ok (success : Bool) (csvWritten : Option (List String))
  | raised (e : FetchError)
  | running
  deriving DecidableEq

/-- `fetch_jira_issues`: credential validation, the pagination loop, then the
zero-issue early return (no CSV written) or the CSV write. -/
def fetch_jira_issues (credsOk authorsOk : Bool) (responses : List JiraResponse)
    (writeOk : Bool) : FetchResult :=
  if ¬ credsOk then FetchResult.raised FetchError.missingCredentials
  else if ¬ authorsOk then FetchResult.raised FetchError.missingAuthors
  else
    match fetch_loop responses [] with
    | FetchOutcome.aborted s _ => FetchResult.raised (FetchError.apiError s)
    | FetchOutcome.exhausted _ => FetchResult.running
    | FetchOutcome.finished acc =>
      if acc = [] then FetchResult.ok false none
      else if writeOk then FetchResult.ok true (some acc)
      else FetchResult.raised FetchError.writeFailure

inductive WrapperRun where
  | ranMsm
  | ranApplens
  | skippedPipeline
  deriving DecidableEq

/-- `run_wrapper_api` in main_gui.py: it branches only on the boolean the
fetcher returned, running a pipeline exactly when it is `true`. -/
def run_wrapper_api (success : Bool) (is_msm : Bool) : WrapperRun :=
  if success then (if is_msm then WrapperRun.ranMsm else WrapperRun.ranApplens)
  else WrapperRun.skippedPipeline

/- ------------------------------------------------------------------ -/
/- Fetcher lemmas and claims C7, C10.                                 -/
/- ------------------------------------------------------------------ -/

lemma pagesRequested_replicate (n : Nat) :
    pagesRequested (List.replicate n ⟨200, ["i"], some "t"⟩) = n := by
  induction n with
  | zero => rfl
  | succ k ih => simp [List.replicate, pagesRequested, ih, Nat.add_comm]

/-- Claim C7, counterexample: the fetcher supports no page-count cap at all;
no bound on the number of requested pages holds over all response streams. -/
theorem c7_no_page_cap_counterexample :
    ¬ ∃ cap : Nat, ∀ rs : List JiraResponse, pagesRequested rs ≤ cap := by
  rintro ⟨cap, h⟩
  have hx := h (List.replicate (cap + 1) ⟨200, ["i"], some "t"⟩)
  rw [pagesRequested_replicate] at hx
  omega

lemma fetch_loop_exhausted_iff (rs : List JiraResponse) : ∀ acc,
    ((∃ acc2, fetch_loop rs acc = FetchOutcome.exhausted acc2) ↔
      ∀ r ∈ rs, r.status = 200 ∧ r.issues ≠ [] ∧ r.nextPageToken ≠ none) := by
  induction rs with
  | nil => intro acc; simp [fetch_loop]
  | cons r rest ih =>
    intro acc
    by_cases h1 : r.status = 200
    · by_cases h2 : r.issues = []
      · simp [fetch_loop, h1, h2]
      · by_cases h3 : r.nextPageToken = none
        · simp [fetch_loop, h1, h2, h3]
        · have hstep : fetch_loop (r :: rest) acc = fetch_loop rest (acc ++ r.issues) := by
            simp [fetch_loop, h1, h2, h3]
          rw [hstep, ih]
          simp [h1, h2, h3]
    · simp [fetch_loop, h1]

/-- Claim C7, amended: the pagination loop terminates exactly when a response
delivers an empty issues array or no continuation token (a non-success status
aborts the fetch with an error); no page cap exists, so the loop keeps
requesting pages as long as every response continues. -/
theorem c7_loop_termination_amended :
    (∀ rs : List JiraResponse,
        ((∃ acc, fetch_loop rs [] = FetchOutcome.exhausted acc) ↔
          ∀ r ∈ rs, r.status = 200 ∧ r.issues ≠ [] ∧ r.nextPageToken ≠ none)) ∧
    (∀ (r : JiraResponse) (rest : List JiraResponse) (acc : List String),
        r.status ≠ 200 →
        fetch_loop (r :: rest) acc = FetchOutcome.aborted r.status acc) ∧
    (∀ (r : JiraResponse) (rest : List JiraResponse) (acc : List String),
        r.status = 200 → r.issues = [] →
        fetch_loop (r :: rest) acc = FetchOutcome.finished acc) ∧
    (∀ (r : JiraResponse) (rest : List JiraResponse) (acc : List String),
        r.status = 200 → r.issues ≠ [] → r.nextPageToken = none →
        fetch_loop (r :: rest) acc = FetchOutcome.finished (acc ++ r.issues)) := by
  refine ⟨fun rs => fetch_loop_exhausted_iff rs [], ?_, ?_, ?_⟩
  · intro r rest acc h1
    simp [fetch_loop, h1]
  · intro r rest acc h1 h2
    simp [fetch_loop, h1, h2]
  · intro r rest acc h1 h2 h3
    simp [fetch_loop, h1, h2, h3]

/-- Witness for C7's amended theorem at a concrete two-page fetch: the first
page continues (100 modelled as one issue with a token), the second page is
empty and stops the loop. -/
theorem c7_loop_termination_amended_witness :
    (200 : Nat) = 200 ∧ ([] : List String) = [] ∧
      fetch_loop [⟨200, [], none⟩] ["issue1"] = FetchOutcome.finished ["issue1"] :=
  ⟨rfl, rfl, c7_loop_termination_amended.2.2.1 ⟨200, [], none⟩ [] ["issue1"] rfl rfl⟩

/-- Claim C10: a fetch whose pagination loop completes with zero collected
issues returns `false` without raising and without writing the CSV, and the
wrapper then runs neither transformation pipeline; the wrapper branches only
on the returned boolean. -/
theorem c10_zero_issues_returns_false (rs : List JiraResponse) (writeOk : Bool)
    (m : Bool) (h : fetch_loop rs [] = FetchOutcome.finished []) :
    fetch_jira_issues true true rs writeOk = FetchResult.ok false none ∧
    run_wrapper_api false m = WrapperRun.skippedPipeline := by
  constructor
  · simp [fetch_jira_issues, h]
  · rfl

/-- Witness for C10: a single empty-page response stream. -/
theorem c10_zero_issues_returns_false_witness :
    fetch_loop [⟨200, [], none⟩] [] = FetchOutcome.finished [] ∧
      fetch_jira_issues true true [⟨200, [], none⟩] true = FetchResult.ok false none ∧
      run_wrapper_api false true = WrapperRun.skippedPipeline :=
  ⟨by decide,
   (c10_zero_issues_returns_false [⟨200, [], none⟩] true true (by decide)).1,
   (c10_zero_issues_returns_false [⟨200, [], none⟩] true true (by decide)).2⟩

/- ------------------------------------------------------------------ -/
/- Association-list tables (the pandas DataFrame model).              -/
/- ------------------------------------------------------------------ -/

/-- One table row: an association list from column name to cell value. -/
abbrev DfRow := List (String × Cell)

/-- Lookup in a Python-dict-like association list (first matching key). -/
def alookup {β : Type} (k : String) : List (String × β) → Option β
  | [] => none
  | p :: ps => if p.1 = k then some p.2 else alookup k ps

/-- Python dict assignment `m[k] = v`: overwrite in place, else append. -/
def upsert {β : Type} (m : List (String × β)) (k : String) (v : β) :
    List (String × β) :=
  if m.any (fun p => p.1 = k) then m.map (fun p => if p.1 = k then (k, v) else p)
  else m ++ [(k, v)]

structure DataFrame where
  cols : List String
  rows : List DfRow
  deriving DecidableEq

/-- `df[c]` as a column read: the cell of each row under column `c`. -/
def DataFrame.getCol (df : DataFrame) (c : String) : Option (List Cell) :=
  if c ∈ df.cols then some (df.rows.map (fun r => (alookup c r).getD Cell.na))
  else none

def DataFrame.getColD (df : DataFrame) (c : String) : List Cell :=
  (df.getCol c).getD []

/-- `df[c] = scalar` (broadcast over all rows). -/
def DataFrame.assignScalar (df : DataFrame) (c : String) (v : Cell) : DataFrame :=
  ⟨if c ∈ df.cols then df.cols else df.cols ++ [c],
   df.rows.map (fun r => upsert r c v)⟩

/-- `df[c] = listlike`; assigning to a table with no columns creates the rows
(as pandas does for the first column of an empty frame). -/
def DataFrame.assignList (df : DataFrame) (c : String) (vs : List Cell) : DataFrame :=
  if df.cols = [] then ⟨[c], vs.map (fun v => [(c, v)])⟩
  else ⟨if c ∈ df.cols then df.cols else df.cols ++ [c],
        (df.rows.zip vs).map (fun p => upsert p.1 c p.2)⟩

/-- `df[names]`: column selection in the given order; `none` models the
`KeyError` raised when a requested column is absent. -/
def DataFrame.select (df : DataFrame) (names : List String) : Option DataFrame :=
  if (∀ c ∈ names, c ∈ df.cols) then
    some ⟨names,
          df.rows.map (fun r => names.map (fun c => (c, (alookup c r).getD Cell.na)))⟩
  else none

/-- `df.dropna(subset=[c])`: drop the rows whose cell under `c` is NaN;
`none` models the `KeyError` on a missing subset column. -/
def DataFrame.dropnaSubset (df : DataFrame) (c : String) : Option DataFrame :=
  if c ∈ df.cols then
    some ⟨df.cols, df.rows.filter (fun r => decide ((alookup c r).getD Cell.na ≠ Cell.na))⟩
  else none

def fillCell (v : Cell) : Cell := if v = Cell.na then Cell.str "" else v

def fillRow (r : DfRow) : DfRow := r.map (fun p => (p.1, fillCell p.2))

/-- `df.fillna('')` over the whole table. -/
def DataFrame.fillnaAll (df : DataFrame) : DataFrame := ⟨df.cols, df.rows.map fillRow⟩

/-- `df[c] = df[c].map(f)`-style per-cell update of one column. -/
def DataFrame.applyCol (df : DataFrame) (c : String) (f : Cell → Cell) : DataFrame :=
  ⟨df.cols, df.rows.map (fun r => r.map (fun p => if p.1 = c then (p.1, f p.2) else p))⟩

/-- `df.rename(columns=m)`. -/
def DataFrame.rename (df : DataFrame) (m : List (String × String)) : DataFrame :=
  ⟨df.cols.map (fun c => (alookup c m).getD c),
   df.rows.map (fun r => r.map (fun p => ((alookup p.1 m).getD p.1, p.2)))⟩

def dedupKeep (l : List String) : List String :=
  l.foldl (fun acc c => if c ∈ acc then acc else acc ++ [c]) []

/-- `df.loc[:, ~df.columns.duplicated()]`: keep the first occurrence of each
column label. -/
def dedupFirst (df : DataFrame) : DataFrame := ⟨dedupKeep df.cols, df.rows⟩

/- ------------------------------------------------------------------ -/
/- Raw CSV input.                                                     -/
/- ------------------------------------------------------------------ -/

/-- A delimited text file: header row plus text rows (positional). -/
structure RawCsv where
  headers : List String
  rows : List (List String)
  deriving DecidableEq

/-- pandas cell parsing: an empty field becomes NaN. -/
def parseCell (s : String) : Cell := if s = "" then Cell.na else Cell.str s

/-- `pd.read_csv(path, usecols=names)`: keeps the columns whose label is in
`names`, in file order. -/
def rawSelect (raw : RawCsv) (names : List String) : DataFrame :=
  let idxs := (List.range raw.headers.length).filter
    (fun i => decide ((raw.headers.getD i "") ∈ names))
  ⟨idxs.map (fun i => raw.headers.getD i ""),
   raw.rows.map (fun r => idxs.map (fun i => (raw.headers.getD i "", parseCell (r.getD i ""))))⟩

inductive PyError where
  | fileNotFound
  | decodeFailure
  | missingColumns (missing : List String) (found : List String)
  | keyError (col : String)
  deriving DecidableEq

inductive LogLevel where
  | info
  | warning
  | error
  deriving DecidableEq

/- ------------------------------------------------------------------ -/
/- data_transformer.py: configuration.                                -/
/- ------------------------------------------------------------------ -/

/-- `{ Jira_Column (Source) : Applens_Column (Target) }`, in declaration order. -/
def COLUMN_MAPPING : List (String × String) :=
  [("Issue Key", "Ticket ID"),
   ("Issue Type", "Ticket Type"),
   ("Updated", "Open Date"),
   ("Status", "Status"),
   ("Resolved", "Closed Date")]

/-- Static values applied to every row. -/
def CONSTANTS : List (String × String) :=
  [("Priority", "NONE"),
   ("Application", "HMOF"),
   ("Assignment Group", "HMH Support Group")]

/-- The strictly enforced order of columns for the final output. -/
def FINAL_COLUMN_ORDER : List String :=
  ["Ticket ID", "Ticket Type", "Open Date", "Priority",
   "Status", "Application", "Assignment Group", "Closed Date"]

/- ------------------------------------------------------------------ -/
/- data_transformer.py: the loader's header reconciliation.           -/
/- ------------------------------------------------------------------ -/

/-- `{col.lower().strip(): col for col in actual_file_columns}` (later wins). -/
def actual_col_map (headers : List String) : List (String × String) :=
  headers.foldl (fun m col => upsert m (pynorm col) col) []

structure StrictScan where
  usecolsActual : List String
  normalizationMap : List (String × String)
  missingCols : List String
  deriving DecidableEq

/-- One iteration of the `for required_col in COLUMN_MAPPING.keys()` loop. -/
def strictScanStep (amap : List (String × String)) (st : StrictScan) (req : String) :
    StrictScan :=
  match alookup (pynorm req) amap with
  | some actual =>
    ⟨st.usecolsActual ++ [actual], upsert st.normalizationMap actual req, st.missingCols⟩
  | none => ⟨st.usecolsActual, st.normalizationMap, st.missingCols ++ [req]⟩

/-- The case-insensitive required-column check of `load_source_data`. -/
def strictScan (headers : List String) : StrictScan :=
  (COLUMN_MAPPING.map Prod.fst).foldl (strictScanStep (actual_col_map headers)) ⟨[], [], []⟩

/-- `load_source_data`: header probe, required-column check, selective read,
then normalization of column names. -/
def load_source_data (input : Except PyError RawCsv) : Except PyError DataFrame :=
  match input with
  | Except.error e => Except.error e
  | Except.ok raw =>
    let st := strictScan raw.headers
    if st.missingCols = [] then
      Except.ok ((rawSelect raw st.usecolsActual).rename st.normalizationMap)
    else Except.error (PyError.missingColumns st.missingCols raw.headers)

/-- `apply_transformations`: rename to target names, then inject constants. -/
def apply_transformations (df : DataFrame) : DataFrame :=
  CONSTANTS.foldl (fun d p => d.assignScalar p.1 (Cell.str p.2))
    (df.rename COLUMN_MAPPING)

/-- `validate_and_clean`: drop rows with a NaN Ticket ID (warning with the
dropped count), coerce the two date columns, blank out NaN Closed Dates. -/
def validate_and_clean (to_datetime : Cell → Cell) (df : DataFrame) :
    Except PyError (DataFrame × List (LogLevel × Nat)) :=
  match df.dropnaSubset "Ticket ID" with
  | none => Except.error (PyError.keyError "Ticket ID")
  | some df1 =>
    let events :=
      if df1.rows.length < df.rows.length then
        [(LogLevel.warning, df.rows.length - df1.rows.length)]
      else []
    let df2 := ["Open Date", "Closed Date"].foldl
      (fun d c => if c ∈ d.cols then d.applyCol c to_datetime else d) df1
    if "Closed Date" ∈ df2.cols then
      Except.ok (df2.applyCol "Closed Date" fillCell, events)
    else Except.error (PyError.keyError "Closed Date")

/-- Result of a write phase: outcome, the table written (if any), and how
many spreadsheet write calls were attempted. -/
structure WriteResult where
  success : Bool
  written : Option DataFrame
  writeCalls : Nat
  deriving DecidableEq

/-- `save_target_file`: order columns strictly, write once, report the
boolean; there is no fallback write. `writer` lists the outcomes of the
successive write attempts the environment would grant. -/
def save_target_file (df : DataFrame) (writer : List Bool) : WriteResult :=
  match df.select FINAL_COLUMN_ORDER with
  | none => ⟨false, none, 0⟩
  | some d => if writer.getD 0 false then ⟨true, some d, 1⟩ else ⟨false, none, 1⟩

/-- The body of the `try` block in `run_transformation_pipeline`. -/
def strict_pipeline (input : Except PyError RawCsv) (to_datetime : Cell → Cell)
    (writer : List Bool) : Except PyError WriteResult :=
  match load_source_data input with
  | Except.error e => Except.error e
  | Except.ok df =>
    match validate_and_clean to_datetime (apply_transformations df) with
    | Except.error e => Except.error e
    | Except.ok r => Except.ok (save_target_file r.1 writer)

/-- `run_transformation_pipeline`: the public entry point; any raised error
is caught and turned into a `false` outcome.  The second component is the
output file content (none when nothing was written). -/
def run_transformation_pipeline (input : Except PyError RawCsv)
    (to_datetime : Cell → Cell) (writer : List Bool) : Bool × Option DataFrame :=
  match strict_pipeline input to_datetime writer with
  | Except.ok w => (w.success, w.written)
  | Except.error _ => (false, none)

/- ------------------------------------------------------------------ -/
/- msm_transformer.py: configuration.                                 -/
/- ------------------------------------------------------------------ -/

/-- Priority mapping as per conversion.md. -/
def PRIORITY_MAPPING : List (String × String) :=
  [("Not set", "P3 (Low)"),
   ("Minor", "P3 (Low)"),
   ("Medium", "P2 (Medium)"),
   ("Major", "P1 (High)")]

/-- MSM output column order - exact as specified. -/
def MSM_FINAL_COLUMN_ORDER : List String :=
  ["S.No",
   "Tower",
   "Application",
   "JIRA ID",
   "Priority",
   "Issue Summary",
   "Assignee",
   "Platform / Content / Data",
   "Status",
   "Issue Status",
   "Month",
   "Issue Creation Time mm/dd/yyyy hh:mm:ss am/pm",
   "Issue Assigned Time (CTS)mm/dd/yyyy hh:mm:ss am/pm",
   "CTS Response Time mm/dd/yyyy hh:mm:ss am/pm",
   "Response SLA Met?",
   "CTS Resolution Time mm/dd/yyyy hh:mm:ss am/pm",
   "Resolution SLA Met?",
   "Last updated Date",
   "Service Category",
   "Request Type",
   "Causal Code",
   "Resolution Code",
   "High Level Debt Classification",
   "Technical Debt Classification",
   "Functional Debt Classification",
   "Operational Debt Classification",
   "Knowledge Debt Classification",
   "Time Spent()"]

/- ------------------------------------------------------------------ -/
/- msm_transformer.py: load_jira_data's header matching.              -/
/- ------------------------------------------------------------------ -/

/-- The canonical fields of `load_jira_data`, in the order of its if-chain. -/
def msmFieldOrder : List String :=
  ["Issue Key", "Project Name", "Summary", "Assignee", "Priority", "Status",
   "Platform", "Created", "Updated", "Resolved", "Worklog"]

/-- The per-field predicate of the if-chain, applied to `col.lower().strip()`. -/
def msmMatches (s : String) (f : String) : Bool :=
  if f = "Issue Key" then s == "issue key" || s == "key"
  else if f = "Project Name" then s == "project name" || s == "project"
  else if f = "Summary" then s == "summary"
  else if f = "Assignee" then strContains s "assignee"
  else if f = "Priority" then s == "priority"
  else if f = "Status" then s == "status"
  else if f = "Platform" then strContains s "platform"
  else if f = "Created" then strContains s "created"
  else if f = "Updated" then strContains s "updated"
  else if f = "Resolved" then strContains s "resolved"
  else if f = "Worklog" then strContains s "worklog" || strContains s "time spent"
  else false

structure MsmScan where
  columnsToRead : List String
  columnMap : List (String × String)
  foundColumns : List String
  deriving DecidableEq

/-- One iteration of the `for col in all_columns` loop: bind the column to
the first still-unbound field whose predicate matches, if any. -/
def msmScanStep (st : MsmScan) (col : String) : MsmScan :=
  match msmFieldOrder.find? (fun f => !st.foundColumns.contains f && msmMatches (pynorm col) f) with
  | some f =>
    ⟨st.columnsToRead ++ [col], upsert st.columnMap col f, st.foundColumns ++ [f]⟩
  | none => st

/-- The header matching pass of `load_jira_data`. -/
def msmScan (headers : List String) : MsmScan :=
  headers.foldl msmScanStep ⟨[], [], []⟩

/-- `load_jira_data`: header probe and matching, selective read, rename to
canonical names, drop duplicate column labels. -/
def load_jira_data (input : Except PyError RawCsv) : Except PyError DataFrame :=
  match input with
  | Except.error e => Except.error e
  | Except.ok raw =>
    let st := msmScan raw.headers
    Except.ok (dedupFirst ((rawSelect raw st.columnsToRead).rename st.columnMap))

/- ------------------------------------------------------------------ -/
/- msm_transformer.py: field derivation.                              -/
/- ------------------------------------------------------------------ -/

/-- `df['Priority'].map(PRIORITY_MAPPING).fillna('P3 (Low)')` per cell. -/
def priorityCell (c : Cell) : Cell :=
  Cell.str ((match c with
    | Cell.str s => alookup s PRIORITY_MAPPING
    | _ => none).getD "P3 (Low)")

/-- `lambda x: 'Yes' if 'CSI' in str(x).upper() else 'NA'`. -/
def resolution_sla (x : Cell) : String :=
  if strContains (pyUpper (pyStr x)) "CSI" then "Yes" else "NA"

/-- Round to nearest integer, ties to even (numpy rounding). -/
def roundHalfEven (q : ℚ) : ℤ :=
  let f : ℤ := ⌊q⌋
  let r : ℚ := q - f
  if r < 1 / 2 then f
  else if 1 / 2 < r then f + 1
  else if f % 2 = 0 then f else f + 1

/-- `.round(2)`. -/
def round2 (q : ℚ) : ℚ := (roundHalfEven (q * 100) : ℚ) / 100

/-- `msm_df[target] = df.get(src, '')`: copy the column when present,
broadcast the empty-string default otherwise. -/
def setFrom (msm df : DataFrame) (target src : String) : DataFrame :=
  match df.getCol src with
  | some vs => msm.assignList target vs
  | none => msm.assignScalar target (Cell.str "")

/-- The `if 'Priority' in df.columns` block of `apply_msm_transformations`. -/
def assignPriority (msm df : DataFrame) : DataFrame :=
  if "Priority" ∈ df.cols then
    msm.assignList "Priority" ((df.getColD "Priority").map priorityCell)
  else msm.assignScalar "Priority" (Cell.str "P3 (Low)")

/-- The `if 'Worklog' in df.columns` block: seconds to hours, two decimals,
`errors='coerce'` then `fillna(0)` modelled by `toNum` returning `none`. -/
def assignTimeSpent (msm df : DataFrame) (toNum : Cell → Option ℚ) : DataFrame :=
  if "Worklog" ∈ df.cols then
    msm.assignList "Time Spent()"
      ((df.getColD "Worklog").map (fun c => Cell.num (round2 (((toNum c).getD 0) / 3600))))
  else msm.assignScalar "Time Spent()" (Cell.num 0)

/-- `apply_msm_transformations`: build the MSM table column by column, in
the statement order of the source.  `current_month` stands for
`datetime.now().strftime('%B')`. -/
def apply_msm_transformations (df : DataFrame) (current_month : String)
    (toNum : Cell → Option ℚ) : DataFrame :=
  let msm : DataFrame := ⟨[], []⟩
  let msm := msm.assignList "S.No" ((List.range df.rows.length).map (fun (i : ℕ) => Cell.num ((i : ℚ) + 1)))
  let msm := setFrom msm df "Tower" "Project Name"
  let msm := msm.assignScalar "Application" (Cell.str "HMOF")
  let msm := setFrom msm df "JIRA ID" "Issue Key"
  let msm := assignPriority msm df
  let msm := setFrom msm df "Issue Summary" "Summary"
  let msm := setFrom msm df "Assignee" "Assignee"
  let msm := setFrom msm df "Platform / Content / Data" "Platform"
  let msm := setFrom msm df "Status" "Status"
  let msm := setFrom msm df "Issue Status" "Status"
  let msm := msm.assignScalar "Month" (Cell.str current_month)
  let msm := setFrom msm df "Issue Creation Time mm/dd/yyyy hh:mm:ss am/pm" "Created"
  let msm := setFrom msm df "Issue Assigned Time (CTS)mm/dd/yyyy hh:mm:ss am/pm" "Created"
  let msm := setFrom msm df "CTS Response Time mm/dd/yyyy hh:mm:ss am/pm" "Updated"
  let msm := msm.assignScalar "Response SLA Met?" (Cell.str "Yes")
  let msm := setFrom msm df "CTS Resolution Time mm/dd/yyyy hh:mm:ss am/pm" "Resolved"
  let msm := msm.assignList "Resolution SLA Met?"
    ((msm.getColD "JIRA ID").map (fun x => Cell.str (resolution_sla x)))
  let msm := setFrom msm df "Last updated Date" "Updated"
  let msm := msm.assignScalar "Service Category" (Cell.str "")
  let msm := msm.assignScalar "Request Type" (Cell.str "")
  let msm := msm.assignScalar "Causal Code" (Cell.str "")
  let msm := msm.assignScalar "Resolution Code" (Cell.str "")
  let msm := msm.assignScalar "High Level Debt Classification" (Cell.str "")
  let msm := msm.assignScalar "Technical Debt Classification" (Cell.str "")
  let msm := msm.assignScalar "Functional Debt Classification" (Cell.str "")
  let msm := msm.assignScalar "Operational Debt Classification" (Cell.str "")
  let msm := msm.assignScalar "Knowledge Debt Classification" (Cell.str "")
  assignTimeSpent msm df toNum

/-- `validate_msm_data`: insert any missing declared column with the empty
string, drop rows with a NaN JIRA ID, fill remaining NaNs with ''. -/
def validate_msm_data (df : DataFrame) : DataFrame :=
  let df0 := MSM_FINAL_COLUMN_ORDER.foldl
    (fun d c => if c ∈ d.cols then d else d.assignScalar c (Cell.str "")) df
  let df1 := (df0.dropnaSubset "JIRA ID").getD df0
  df1.fillnaAll

/-- `save_msm_file`: the styled write, and on its failure exactly one
fallback to the plain `to_excel` export. -/
def save_msm_file (df : DataFrame) (writer : List Bool) : WriteResult :=
  match df.select MSM_FINAL_COLUMN_ORDER with
  | none => ⟨false, none, 0⟩
  | some d =>
    if writer.getD 0 false then ⟨true, some d, 1⟩
    else if writer.getD 1 false then ⟨true, some d, 2⟩
    else ⟨false, none, 2⟩

/-- The body of the `try` block in `run_msm_transformation_pipeline`. -/
def msm_pipeline (input : Except PyError RawCsv) (current_month : String)
    (toNum : Cell → Option ℚ) (writer : List Bool) : Except PyError WriteResult :=
  match load_jira_data input with
  | Except.error e => Except.error e
  | Except.ok df =>
    Except.ok (save_msm_file (validate_msm_data
      (apply_msm_transformations df current_month toNum)) writer)

/-- `run_msm_transformation_pipeline`: the public MSM entry point. -/
def run_msm_transformation_pipeline (input : Except PyError RawCsv)
    (current_month : String) (toNum : Cell → Option ℚ) (writer : List Bool) :
    Bool × Option DataFrame :=
  match msm_pipeline input current_month toNum writer with
  | Except.ok w => (w.success, w.written)
  | Except.error _ => (false, none)

/- ------------------------------------------------------------------ -/
/- Association-list lemmas.                                           -/
/- ------------------------------------------------------------------ -/

lemma alookup_eq_none_iff {β : Type} (k : String) (m : List (String × β)) :
    alookup k m = none ↔ ∀ p ∈ m, p.1 ≠ k := by
  induction m with
  | nil => simp [alookup]
  | cons p ps ih =>
    by_cases hp : p.1 = k
    · simp [alookup, hp]
    · simp [alookup, hp, ih]

lemma alookup_mem {β : Type} {k : String} {v : β} {m : List (String × β)}
    (h : alookup k m = some v) : (k, v) ∈ m := by
  induction m with
  | nil => simp [alookup] at h
  | cons p ps ih =>
    by_cases hp : p.1 = k
    · have hv : p.2 = v := by simpa [alookup, hp] using h
      have : p = (k, v) := by
        cases p
        simp_all
      simp [this]
    · have h2 : alookup k ps = some v := by simpa [alookup, hp] using h
      simp [ih h2]

lemma alookup_append {β : Type} (k : String) (l1 l2 : List (String × β)) :
    alookup k (l1 ++ l2) =
      (match alookup k l1 with
       | some v => some v
       | none => alookup k l2) := by
  induction l1 with
  | nil => simp [alookup]
  | cons p ps ih =>
    by_cases hp : p.1 = k
    · simp [alookup, hp]
    · simp [alookup, hp, ih]

lemma alookup_overwrite_self {β : Type} (m : List (String × β)) (k : String) (v : β) :
    alookup k (m.map (fun p => if p.1 = k then (k, v) else p)) =
      if m.any (fun p => decide (p.1 = k)) then some v else none := by
  induction m with
  | nil => simp [alookup]
  | cons p ps ih =>
    by_cases hp : p.1 = k
    · simp [alookup, hp]
    · rw [List.map_cons, if_neg hp, List.any_cons]
      have h1 : alookup k (p :: List.map (fun q => if q.1 = k then (k, v) else q) ps)
          = alookup k (List.map (fun q => if q.1 = k then (k, v) else q) ps) := by
        simp [alookup, hp]
      rw [h1, ih, decide_eq_false hp, Bool.false_or]

lemma alookup_overwrite_ne {β : Type} (m : List (String × β)) (k k' : String) (v : β)
    (h : k' ≠ k) :
    alookup k' (m.map (fun p => if p.1 = k then (k, v) else p)) = alookup k' m := by
  induction m with
  | nil => simp
  | cons p ps ih =>
    by_cases hp : p.1 = k
    · rw [List.map_cons, if_pos hp]
      have hne : ¬ ((k, v).1 = k') := fun hc => h hc.symm
      have hne2 : ¬ (p.1 = k') := by rw [hp]; exact fun hc => h hc.symm
      simp [alookup, hne, hne2, ih]
    · by_cases hp' : p.1 = k'
      · rw [List.map_cons, if_neg hp]
        simp [alookup, hp']
      · rw [List.map_cons, if_neg hp]
        simp [alookup, hp', ih]

lemma alookup_upsert_self {β : Type} (m : List (String × β)) (k : String) (v : β) :
    alookup k (upsert m k v) = some v := by
  unfold upsert
  by_cases h : m.any (fun p => decide (p.1 = k))
  · simp [h, alookup_overwrite_self]
  · have hnone : alookup k m = none := by
      rw [alookup_eq_none_iff]
      intro p hp hk
      exact h (List.any_eq_true.mpr ⟨p, hp, by simp [hk]⟩)
    simp [h, alookup_append, hnone, alookup]

lemma alookup_upsert_ne {β : Type} (m : List (String × β)) (k k' : String) (v : β)
    (h : k' ≠ k) : alookup k' (upsert m k v) = alookup k' m := by
  unfold upsert
  by_cases hc : m.any (fun p => decide (p.1 = k))
  · simp [hc, alookup_overwrite_ne _ _ _ _ h]
  · rw [if_neg hc, alookup_append]
    cases hl : alookup k' m with
    | some w => simp
    | none =>
      have hne : ¬ k = k' := fun hc => h hc.symm
      simp [alookup, hne]

lemma mem_upsert {β : Type} {p : String × β} {m : List (String × β)} {k : String} {v : β} :
    p ∈ upsert m k v ↔ p = (k, v) ∨ (p ∈ m ∧ p.1 ≠ k) := by
  unfold upsert
  by_cases hc : m.any (fun q => decide (q.1 = k))
  · rw [if_pos hc]
    constructor
    · intro hm
      obtain ⟨q, hq, hfq⟩ := List.mem_map.mp hm
      by_cases hqk : q.1 = k
      · left; simp [hqk] at hfq; exact hfq.symm
      · right; simp [hqk] at hfq; exact ⟨hfq ▸ hq, hfq ▸ hqk⟩
    · rintro (rfl | ⟨hpm, hpk⟩)
      · obtain ⟨q, hq, hqk⟩ := List.any_eq_true.mp hc
        have hqk' : q.1 = k := by simpa using hqk
        exact List.mem_map.mpr ⟨q, hq, by simp [hqk']⟩
      · exact List.mem_map.mpr ⟨p, hpm, by simp [hpk]⟩
  · rw [if_neg hc]
    have hnk : ∀ q ∈ m, q.1 ≠ k := by
      intro q hq hk
      exact hc (List.any_eq_true.mpr ⟨q, hq, by simp [hk]⟩)
    constructor
    · intro hm
      rcases List.mem_append.mp hm with hm1 | hm2
      · exact Or.inr ⟨hm1, hnk p hm1⟩
      · left; simpa using hm2
    · rintro (rfl | ⟨hpm, _⟩)
      · simp
      · exact List.mem_append.mpr (Or.inl hpm)

lemma upsert_of_not_key {β : Type} {m : List (String × β)} {k : String} {v : β}
    (h : ∀ p ∈ m, p.1 ≠ k) : upsert m k v = m ++ [(k, v)] := by
  unfold upsert
  rw [if_neg]
  intro hc
  obtain ⟨q, hq, hqk⟩ := List.any_eq_true.mp hc
  exact h q hq (by simpa using hqk)

lemma alookup_of_mem_nodup_keys {β : Type} {m : List (String × β)} {k : String} {v : β}
    (hnd : (m.map Prod.fst).Nodup) (hm : (k, v) ∈ m) : alookup k m = some v := by
  induction m with
  | nil => simp at hm
  | cons p ps ih =>
    rcases List.mem_cons.mp hm with rfl | hm2
    · simp [alookup]
    · have hk : p.1 ≠ k := by
        intro hc
        have : k ∈ ps.map Prod.fst := List.mem_map.mpr ⟨(k, v), hm2, rfl⟩
        rw [List.map_cons, List.nodup_cons] at hnd
        exact hnd.1 (hc ▸ this)
      have hnd2 : (ps.map Prod.fst).Nodup := by
        rw [List.map_cons, List.nodup_cons] at hnd
        exact hnd.2
      simp [alookup, hk, ih hnd2 hm2]

lemma nodup_keys_val_eq {β : Type} {m : List (String × β)} {c : String} {f1 f2 : β}
    (hnd : (m.map Prod.fst).Nodup) (h1 : (c, f1) ∈ m) (h2 : (c, f2) ∈ m) : f1 = f2 := by
  have e1 := alookup_of_mem_nodup_keys hnd h1
  have e2 := alookup_of_mem_nodup_keys hnd h2
  rw [e1] at e2
  exact Option.some.inj e2

lemma nodup_vals_key_eq {β : Type} [DecidableEq β] {m : List (String × β)} {c1 c2 : String}
    {f : β} (hnd : (m.map Prod.snd).Nodup) (h1 : (c1, f) ∈ m) (h2 : (c2, f) ∈ m) :
    c1 = c2 := by
  induction m with
  | nil => simp at h1
  | cons p ps ih =>
    rw [List.map_cons, List.nodup_cons] at hnd
    rcases List.mem_cons.mp h1 with rfl | hm1 <;> rcases List.mem_cons.mp h2 with h2' | hm2
    · exact congrArg Prod.fst h2'.symm
    · exact absurd (List.mem_map.mpr ⟨(c2, f), hm2, rfl⟩) hnd.1
    · cases h2'
      exact absurd (List.mem_map.mpr ⟨(c1, f), hm1, rfl⟩) hnd.1
    · exact ih hnd.2 hm1 hm2

/- ------------------------------------------------------------------ -/
/- Claim C4: the entry points convert every phase error to failure.   -/
/- ------------------------------------------------------------------ -/

/-- Claim C4: both top-level pipeline entry points always return a boolean
outcome; an error raised by any phase is caught and becomes a `false` result
(with nothing written), and an error-free run reports the write phase's own
boolean. -/
theorem c4_pipeline_catches_all_phase_errors :
    (∀ (input : Except PyError RawCsv) (tdt : Cell → Cell) (writer : List Bool)
        (e : PyError),
        strict_pipeline input tdt writer = Except.error e →
        run_transformation_pipeline input tdt writer = (false, none)) ∧
    (∀ (input : Except PyError RawCsv) (tdt : Cell → Cell) (writer : List Bool)
        (w : WriteResult),
        strict_pipeline input tdt writer = Except.ok w →
        run_transformation_pipeline input tdt writer = (w.success, w.written)) ∧
    (∀ (input : Except PyError RawCsv) (month : String) (toNum : Cell → Option ℚ)
        (writer : List Bool) (e : PyError),
        msm_pipeline input month toNum writer = Except.error e →
        run_msm_transformation_pipeline input month toNum writer = (false, none)) ∧
    (∀ (input : Except PyError RawCsv) (month : String) (toNum : Cell → Option ℚ)
        (writer : List Bool) (w : WriteResult),
        msm_pipeline input month toNum writer = Except.ok w →
        run_msm_transformation_pipeline input month toNum writer = (w.success, w.written)) := by
  refine ⟨?_, ?_, ?_, ?_⟩
  · intro input tdt writer e h
    simp [run_transformation_pipeline, h]
  · intro input tdt writer w h
    simp [run_transformation_pipeline, h]
  · intro input month toNum writer e h
    simp [run_msm_transformation_pipeline, h]
  · intro input month toNum writer w h
    simp [run_msm_transformation_pipeline, h]

/-- Witness for C4 at a concrete raising input (the file does not exist):
both pipelines return the failure pair. -/
theorem c4_pipeline_catches_all_phase_errors_witness :
    strict_pipeline (Except.error PyError.fileNotFound) (fun c => c) [] =
        Except.error PyError.fileNotFound ∧
      msm_pipeline (Except.error PyError.fileNotFound) "January" (fun _ => none) [] =
        Except.error PyError.fileNotFound ∧
      run_transformation_pipeline (Except.error PyError.fileNotFound) (fun c => c) [] =
        (false, none) ∧
      run_msm_transformation_pipeline (Except.error PyError.fileNotFound) "January"
          (fun _ => none) [] = (false, none) :=
  ⟨rfl, rfl,
   c4_pipeline_catches_all_phase_errors.1 _ _ _ PyError.fileNotFound rfl,
   c4_pipeline_catches_all_phase_errors.2.2.1 _ _ _ _ PyError.fileNotFound rfl⟩

/- ------------------------------------------------------------------ -/
/- Claim C6: write-failure fallback policy.                           -/
/- ------------------------------------------------------------------ -/

def applensDemoTable : DataFrame := ⟨FINAL_COLUMN_ORDER, []⟩

def msmDemoTable : DataFrame := ⟨MSM_FINAL_COLUMN_ORDER, []⟩

/-- Claim C6, counterexample: the strict writer `save_target_file` attempts
no fallback.  With its single write failing while a second (fallback) write
would have succeeded, the phase still fails after exactly one write call —
not the claimed one-fallback-then-success behavior. -/
theorem c6_strict_writer_no_fallback_counterexample :
    (save_target_file applensDemoTable [false, true]).success = false ∧
    (save_target_file applensDemoTable [false, true]).writeCalls = 1 := by
  constructor <;> rfl

/-- Claim C6, amended: only the MSM writer `save_msm_file` retries — exactly
one fallback to the plain export, succeeding iff either write succeeds; the
strict writer `save_target_file` performs at most one write call and succeeds
only when that first write succeeds. -/
theorem c6_write_fallback_amended :
    (∀ (df : DataFrame) (w0 w1 : Bool) (rest : List Bool),
        (∀ c ∈ MSM_FINAL_COLUMN_ORDER, c ∈ df.cols) →
        (save_msm_file df (w0 :: w1 :: rest)).success = (w0 || w1) ∧
        (save_msm_file df (w0 :: w1 :: rest)).writeCalls = (if w0 then 1 else 2)) ∧
    (∀ (df : DataFrame) (writer : List Bool),
        (save_target_file df writer).writeCalls ≤ 1 ∧
        ((save_target_file df writer).success = true → writer.getD 0 false = true)) := by
  constructor
  · intro df w0 w1 rest h
    rw [save_msm_file, DataFrame.select, if_pos h]
    cases w0 <;> cases w1 <;> simp
  · intro df writer
    rw [save_target_file]
    cases hs : df.select FINAL_COLUMN_ORDER with
    | none => simp
    | some d =>
      by_cases hw : writer[0]?.getD false = true
      · simp [hw]
      · simp [hw]

/-- Witness for C6's amended theorem: full-schema table, styled write fails,
fallback succeeds; the MSM write phase succeeds after two write calls. -/
theorem c6_write_fallback_amended_witness :
    (∀ c ∈ MSM_FINAL_COLUMN_ORDER, c ∈ msmDemoTable.cols) ∧
      (save_msm_file msmDemoTable [false, true]).success = (false || true) ∧
      (save_msm_file msmDemoTable [false, true]).writeCalls = (if false then 1 else 2) :=
  ⟨by decide,
   (c6_write_fallback_amended.1 msmDemoTable false true [] (by decide)).1,
   (c6_write_fallback_amended.1 msmDemoTable false true [] (by decide)).2⟩

/- ------------------------------------------------------------------ -/
/- Lemmas about the strict loader's header reconciliation.            -/
/- ------------------------------------------------------------------ -/

lemma actual_col_map_go_mem (headers : List String) :
    ∀ (m0 : List (String × String)) (p : String × String),
      p ∈ headers.foldl (fun m col => upsert m (pynorm col) col) m0 →
      p ∈ m0 ∨ (p.1 = pynorm p.2 ∧ p.2 ∈ headers) := by
  induction headers with
  | nil => intro m0 p h; exact Or.inl h
  | cons c hs ih =>
    intro m0 p h
    rcases ih (upsert m0 (pynorm c) c) p h with h1 | h2
    · rcases mem_upsert.mp h1 with rfl | ⟨hm, _⟩
      · exact Or.inr ⟨rfl, List.mem_cons_self _ _⟩
      · exact Or.inl hm
    · exact Or.inr ⟨h2.1, List.mem_cons_of_mem _ h2.2⟩

lemma mem_actual_col_map {headers : List String} {p : String × String}
    (h : p ∈ actual_col_map headers) : p.1 = pynorm p.2 ∧ p.2 ∈ headers := by
  rcases actual_col_map_go_mem headers [] p h with h1 | h2
  · simp at h1
  · exact h2

lemma alookup_foldl_upsert_none (k : String) (headers : List String) :
    ∀ (m0 : List (String × String)),
      (alookup k (headers.foldl (fun m col => upsert m (pynorm col) col) m0) = none ↔
        (alookup k m0 = none ∧ ∀ h ∈ headers, pynorm h ≠ k)) := by
  induction headers with
  | nil => intro m0; simp
  | cons c hs ih =>
    intro m0
    rw [List.foldl_cons, ih]
    by_cases hk : k = pynorm c
    · subst hk
      simp [alookup_upsert_self]
    · rw [alookup_upsert_ne _ _ _ _ hk]
      constructor
      · rintro ⟨h1, h2⟩
        exact ⟨h1, by
          intro h hh
          rcases List.mem_cons.mp hh with rfl | hmem
          · exact fun hc => hk hc.symm
          · exact h2 h hmem⟩
      · rintro ⟨h1, h2⟩
        exact ⟨h1, fun h hh => h2 h (List.mem_cons_of_mem _ hh)⟩

lemma alookup_actual_col_map_none_iff (k : String) (headers : List String) :
    alookup k (actual_col_map headers) = none ↔ ∀ h ∈ headers, pynorm h ≠ k := by
  rw [actual_col_map, alookup_foldl_upsert_none]
  simp [alookup]

lemma alookup_actual_col_map_some {k : String} {headers : List String} {v : String}
    (h : alookup k (actual_col_map headers) = some v) : pynorm v = k ∧ v ∈ headers := by
  have hm := mem_actual_col_map (alookup_mem h)
  exact ⟨hm.1.symm, hm.2⟩

lemma strictScanGo_missing (amap : List (String × String)) (L : List String) :
    ∀ (init : StrictScan),
      (L.foldl (strictScanStep amap) init).missingCols =
        init.missingCols ++ L.filter (fun r => (alookup (pynorm r) amap).isNone) := by
  induction L with
  | nil => intro init; simp
  | cons r L' ih =>
    intro init
    rw [List.foldl_cons]
    cases h : alookup (pynorm r) amap with
    | some a =>
      rw [ih]
      simp [strictScanStep, h]
    | none =>
      rw [ih]
      simp [strictScanStep, h]

lemma strictScan_missing (headers : List String) :
    (strictScan headers).missingCols =
      (COLUMN_MAPPING.map Prod.fst).filter
        (fun r => (alookup (pynorm r) (actual_col_map headers)).isNone) := by
  rw [strictScan, strictScanGo_missing]
  simp

/- ------------------------------------------------------------------ -/
/- Claim C1: a missing required column aborts the strict pipeline.    -/
/- ------------------------------------------------------------------ -/

/-- Claim C1: when some required column of the strict schema matches no
header case-insensitively, the loader raises an error carrying the full
missing list together with the observed headers, every unresolved required
field is in that list, and the pipeline returns failure with nothing written
— independently of the data rows, which are never touched. -/
theorem c1_missing_required_column_fails (raw : RawCsv) (tdt : Cell → Cell)
    (writer : List Bool)
    (h : ∃ r ∈ COLUMN_MAPPING.map Prod.fst, ∀ hd ∈ raw.headers, pynorm hd ≠ pynorm r) :
    (strictScan raw.headers).missingCols ≠ [] ∧
    load_source_data (Except.ok raw) =
      Except.error (PyError.missingColumns (strictScan raw.headers).missingCols raw.headers) ∧
    (∀ r ∈ COLUMN_MAPPING.map Prod.fst,
        (∀ hd ∈ raw.headers, pynorm hd ≠ pynorm r) →
        r ∈ (strictScan raw.headers).missingCols) ∧
    (∀ rows2 : List (List String),
        run_transformation_pipeline (Except.ok ⟨raw.headers, rows2⟩) tdt writer =
          (false, none)) := by
  have hmem : ∀ r ∈ COLUMN_MAPPING.map Prod.fst,
      (∀ hd ∈ raw.headers, pynorm hd ≠ pynorm r) →
      r ∈ (strictScan raw.headers).missingCols := by
    intro r hr hnone
    rw [strictScan_missing]
    refine List.mem_filter.mpr ⟨hr, ?_⟩
    have : alookup (pynorm r) (actual_col_map raw.headers) = none :=
      (alookup_actual_col_map_none_iff _ _).mpr hnone
    simp [this]
  obtain ⟨r, hr, hnone⟩ := h
  have hne : (strictScan raw.headers).missingCols ≠ [] :=
    List.ne_nil_of_mem (hmem r hr hnone)
  refine ⟨hne, ?_, hmem, ?_⟩
  · rw [load_source_data]
    simp [hne]
  · intro rows2
    have hload : load_source_data (Except.ok (⟨raw.headers, rows2⟩ : RawCsv)) =
        Except.error (PyError.missingColumns (strictScan raw.headers).missingCols raw.headers) := by
      rw [load_source_data]
      simp [hne]
    rw [run_transformation_pipeline, strict_pipeline, hload]

/-- Witness for C1: a table with only two of the five required headers. -/
theorem c1_missing_required_column_fails_witness :
    (∃ r ∈ COLUMN_MAPPING.map Prod.fst,
        ∀ hd ∈ (⟨["Issue Key", "Status"], []⟩ : RawCsv).headers, pynorm hd ≠ pynorm r) ∧
      run_transformation_pipeline (Except.ok ⟨["Issue Key", "Status"], []⟩)
          (fun c => c) [] = (false, none) :=
  ⟨by decide,
   (c1_missing_required_column_fails ⟨["Issue Key", "Status"], []⟩ (fun c => c) []
      (by decide)).2.2.2 []⟩

/- ------------------------------------------------------------------ -/
/- Small operation lemmas for the strict validation phase.            -/
/- ------------------------------------------------------------------ -/

lemma applyCol_cols (df : DataFrame) (c : String) (f : Cell → Cell) :
    (df.applyCol c f).cols = df.cols := rfl

lemma applyCol_rows_length (df : DataFrame) (c : String) (f : Cell → Cell) :
    (df.applyCol c f).rows.length = df.rows.length := by
  simp [DataFrame.applyCol]

lemma dateFold_cols (tdt : Cell → Cell) (L : List String) :
    ∀ d : DataFrame,
      (L.foldl (fun d c => if c ∈ d.cols then d.applyCol c tdt else d) d).cols = d.cols := by
  induction L with
  | nil => intro d; rfl
  | cons c L' ih =>
    intro d
    rw [List.foldl_cons]
    by_cases hc : c ∈ d.cols
    · rw [if_pos hc, ih, applyCol_cols]
    · rw [if_neg hc, ih]

lemma dateFold_rows_length (tdt : Cell → Cell) (L : List String) :
    ∀ d : DataFrame,
      (L.foldl (fun d c => if c ∈ d.cols then d.applyCol c tdt else d) d).rows.length =
        d.rows.length := by
  induction L with
  | nil => intro d; rfl
  | cons c L' ih =>
    intro d
    rw [List.foldl_cons]
    by_cases hc : c ∈ d.cols
    · rw [if_pos hc, ih, applyCol_rows_length]
    · rw [if_neg hc, ih]

lemma filter_length_split {α : Type} (p : α → Bool) (l : List α) :
    (l.filter p).length + (l.filter (fun a => !(p a))).length = l.length := by
  induction l with
  | nil => rfl
  | cons a l ih =>
    cases hp : p a <;> simp [List.filter_cons, hp, ← ih] <;> omega

/- ------------------------------------------------------------------ -/
/- Claim C5: rows without a Ticket ID are dropped with a warning.     -/
/- ------------------------------------------------------------------ -/

/-- Claim C5: strict-schema validation drops exactly the rows whose Ticket
ID cell is missing, the dropped count equals input minus output row count,
and the count is surfaced as a warning event (never an error); an empty CSV
field parses to the missing value, so empty identifiers are dropped too. -/
theorem c5_missing_ticket_id_rows_dropped (df : DataFrame) (tdt : Cell → Cell)
    (h : "Ticket ID" ∈ df.cols) (h2 : "Closed Date" ∈ df.cols) :
    ∃ out events, validate_and_clean tdt df = Except.ok (out, events) ∧
      out.rows.length =
        (df.rows.filter (fun r => decide ((alookup "Ticket ID" r).getD Cell.na ≠ Cell.na))).length ∧
      df.rows.length - out.rows.length =
        (df.rows.filter (fun r => decide ((alookup "Ticket ID" r).getD Cell.na = Cell.na))).length ∧
      events = (if 0 < df.rows.length - out.rows.length then
          [(LogLevel.warning, df.rows.length - out.rows.length)] else []) ∧
      (∀ ev ∈ events, ev.1 = LogLevel.warning) ∧
      parseCell "" = Cell.na := by
  have hcd : "Closed Date" ∈ (["Open Date", "Closed Date"].foldl
      (fun d c => if c ∈ d.cols then d.applyCol c tdt else d)
      (⟨df.cols, df.rows.filter
        (fun r => decide ((alookup "Ticket ID" r).getD Cell.na ≠ Cell.na))⟩ : DataFrame)).cols := by
    rw [dateFold_cols]
    exact h2
  have hval : validate_and_clean tdt df = Except.ok
      ((["Open Date", "Closed Date"].foldl
          (fun d c => if c ∈ d.cols then d.applyCol c tdt else d)
          (⟨df.cols, df.rows.filter
            (fun r => decide ((alookup "Ticket ID" r).getD Cell.na ≠ Cell.na))⟩ : DataFrame)).applyCol
        "Closed Date" fillCell,
       if (df.rows.filter
            (fun r => decide ((alookup "Ticket ID" r).getD Cell.na ≠ Cell.na))).length <
          df.rows.length then
         [(LogLevel.warning, df.rows.length -
            (df.rows.filter
              (fun r => decide ((alookup "Ticket ID" r).getD Cell.na ≠ Cell.na))).length)]
       else []) := by
    rw [validate_and_clean, DataFrame.dropnaSubset, if_pos h]
    dsimp only
    rw [if_pos hcd]
  have hol : ((["Open Date", "Closed Date"].foldl
      (fun d c => if c ∈ d.cols then d.applyCol c tdt else d)
      (⟨df.cols, df.rows.filter
        (fun r => decide ((alookup "Ticket ID" r).getD Cell.na ≠ Cell.na))⟩ : DataFrame)).applyCol
      "Closed Date" fillCell).rows.length =
      (df.rows.filter
        (fun r => decide ((alookup "Ticket ID" r).getD Cell.na ≠ Cell.na))).length := by
    rw [applyCol_rows_length, dateFold_rows_length]
  have hsplit := filter_length_split
    (fun r => decide ((alookup "Ticket ID" r).getD Cell.na ≠ Cell.na)) df.rows
  have hdropeq : df.rows.filter
      (fun r => !(decide ((alookup "Ticket ID" r).getD Cell.na ≠ Cell.na))) =
      df.rows.filter (fun r => decide ((alookup "Ticket ID" r).getD Cell.na = Cell.na)) := by
    apply List.filter_congr
    intro r _
    simp [decide_not]
  rw [hdropeq] at hsplit
  have hle := List.length_filter_le
    (fun r => decide ((alookup "Ticket ID" r).getD Cell.na ≠ Cell.na)) df.rows
  refine ⟨_, _, hval, hol, ?_, ?_, ?_, rfl⟩
  · rw [hol]
    omega
  · rw [hol]
    by_cases hlt : (df.rows.filter
        (fun r => decide ((alookup "Ticket ID" r).getD Cell.na ≠ Cell.na))).length <
        df.rows.length
    · rw [if_pos hlt, if_pos (by omega)]
    · rw [if_neg hlt, if_neg (by omega)]
  · by_cases hlt : (df.rows.filter
        (fun r => decide ((alookup "Ticket ID" r).getD Cell.na ≠ Cell.na))).length <
        df.rows.length
    · rw [if_pos hlt]
      intro ev hev
      rcases List.mem_singleton.mp hev with rfl
      rfl
    · rw [if_neg hlt]
      intro ev hev
      simp at hev

/-- Witness for C5: two rows with identifiers, one row without. -/
theorem c5_missing_ticket_id_rows_dropped_witness :
    ("Ticket ID" ∈ (⟨["Ticket ID", "Closed Date"],
        [[("Ticket ID", Cell.str "A"), ("Closed Date", Cell.na)],
         [("Ticket ID", Cell.na), ("Closed Date", Cell.na)],
         [("Ticket ID", Cell.str "B"), ("Closed Date", Cell.str "d")]]⟩ : DataFrame).cols) ∧
      ∃ out events,
        validate_and_clean (fun c => c)
            ⟨["Ticket ID", "Closed Date"],
             [[("Ticket ID", Cell.str "A"), ("Closed Date", Cell.na)],
              [("Ticket ID", Cell.na), ("Closed Date", Cell.na)],
              [("Ticket ID", Cell.str "B"), ("Closed Date", Cell.str "d")]]⟩ =
          Except.ok (out, events) ∧
        out.rows.length = 2 ∧ events = [(LogLevel.warning, 1)] := by
  refine ⟨by decide, ?_⟩
  obtain ⟨out, events, hval, hlen, hdrop, hev, hwarn, hparse⟩ :=
    c5_missing_ticket_id_rows_dropped
      ⟨["Ticket ID", "Closed Date"],
       [[("Ticket ID", Cell.str "A"), ("Closed Date", Cell.na)],
        [("Ticket ID", Cell.na), ("Closed Date", Cell.na)],
        [("Ticket ID", Cell.str "B"), ("Closed Date", Cell.str "d")]]⟩
      (fun c => c) (by decide) (by decide)
  refine ⟨out, events, hval, ?_, ?_⟩
  · rw [hlen]
    decide
  · rw [hev, hlen]
    decide

/- ------------------------------------------------------------------ -/
/- Column access lemmas.                                              -/
/- ------------------------------------------------------------------ -/

lemma getCol_of_mem {df : DataFrame} {c : String} (hc : c ∈ df.cols) :
    df.getCol c = some (df.rows.map (fun r => (alookup c r).getD Cell.na)) := by
  rw [DataFrame.getCol, if_pos hc]

lemma getCol_eq_some {df : DataFrame} {c : String} {vs : List Cell}
    (h : df.getCol c = some vs) :
    c ∈ df.cols ∧ vs = df.rows.map (fun r => (alookup c r).getD Cell.na) := by
  rw [DataFrame.getCol] at h
  by_cases hc : c ∈ df.cols
  · rw [if_pos hc] at h
    exact ⟨hc, (Option.some.inj h).symm⟩
  · rw [if_neg hc] at h
    simp at h

lemma select_some_spec {df : DataFrame} {names : List String} {out : DataFrame}
    (h : df.select names = some out) :
    out.cols = names ∧ ∀ r ∈ out.rows, r.map Prod.fst = names := by
  rw [DataFrame.select] at h
  by_cases hc : ∀ c ∈ names, c ∈ df.cols
  · rw [if_pos hc] at h
    obtain rfl := Option.some.inj h
    refine ⟨rfl, ?_⟩
    intro r hr
    obtain ⟨r0, _, rfl⟩ := List.mem_map.mp hr
    rw [List.map_map]
    have hcomp : (Prod.fst ∘ fun c => (c, (alookup c r0).getD Cell.na)) = id := rfl
    rw [hcomp, List.map_id]
  · rw [if_neg hc] at h
    simp at h

lemma assignScalar_rows_length (df : DataFrame) (c : String) (v : Cell) :
    (df.assignScalar c v).rows.length = df.rows.length := by
  simp [DataFrame.assignScalar]

lemma assignScalar_cols_superset (df : DataFrame) (c : String) (v : Cell) :
    ∀ c', c' ∈ df.cols → c' ∈ (df.assignScalar c v).cols := by
  intro c' h
  rw [DataFrame.assignScalar]
  by_cases hc : c ∈ df.cols
  · simpa [hc] using h
  · simp [hc, h]

lemma assignScalar_cols_self (df : DataFrame) (c : String) (v : Cell) :
    c ∈ (df.assignScalar c v).cols := by
  rw [DataFrame.assignScalar]
  by_cases hc : c ∈ df.cols
  · simpa [hc] using hc
  · simp [hc]

lemma getCol_assignScalar_self (df : DataFrame) (c : String) (v : Cell) :
    (df.assignScalar c v).getCol c = some (List.replicate df.rows.length v) := by
  have hc : c ∈ (df.assignScalar c v).cols := assignScalar_cols_self df c v
  rw [getCol_of_mem hc]
  congr 1
  show (df.rows.map (fun r => upsert r c v)).map (fun r => (alookup c r).getD Cell.na) = _
  rw [List.map_map]
  have heq : ((fun r => (alookup c r).getD Cell.na) ∘ fun r => upsert r c v) =
      fun _ => v := by
    funext r
    simp [Function.comp, alookup_upsert_self]
  rw [heq]
  exact List.map_const' _ v

lemma getCol_assignScalar_ne (df : DataFrame) {c' c : String} (v : Cell) (hne : c' ≠ c) :
    (df.assignScalar c v).getCol c' = df.getCol c' := by
  have hmem : c' ∈ (df.assignScalar c v).cols ↔ c' ∈ df.cols := by
    rw [DataFrame.assignScalar]
    by_cases h : c ∈ df.cols
    · simp [h]
    · simp [h, hne]
  by_cases h' : c' ∈ df.cols
  · rw [getCol_of_mem (hmem.mpr h'), getCol_of_mem h']
    congr 1
    show (df.rows.map (fun r => upsert r c v)).map (fun r => (alookup c' r).getD Cell.na) = _
    rw [List.map_map]
    apply List.map_congr_left
    intro r _
    simp [Function.comp, alookup_upsert_ne _ _ _ _ hne]
  · rw [DataFrame.getCol, DataFrame.getCol, if_neg (fun hc => h' (hmem.mp hc)), if_neg h']

lemma fillnaAll_cols (df : DataFrame) : df.fillnaAll.cols = df.cols := rfl

lemma fillnaAll_rows (df : DataFrame) : df.fillnaAll.rows = df.rows.map fillRow := rfl

lemma alookup_fillRow (c : String) (r : DfRow) :
    alookup c (fillRow r) = (alookup c r).map fillCell := by
  induction r with
  | nil => rfl
  | cons p ps ih =>
    by_cases hp : p.1 = c
    · simp [fillRow, alookup, hp]
    · simp [fillRow, alookup, hp] at ih ⊢
      exact ih

/- ------------------------------------------------------------------ -/
/- The missing-column insertion loop of validate_msm_data.            -/
/- ------------------------------------------------------------------ -/

lemma insertFold_rows_length (L : List String) :
    ∀ d : DataFrame,
      (L.foldl (fun d c => if c ∈ d.cols then d else d.assignScalar c (Cell.str "")) d).rows.length =
        d.rows.length := by
  induction L with
  | nil => intro d; rfl
  | cons t L' ih =>
    intro d
    rw [List.foldl_cons]
    by_cases ht : t ∈ d.cols
    · rw [if_pos ht, ih]
    · rw [if_neg ht, ih, assignScalar_rows_length]

lemma insertFold_cols_mono (L : List String) :
    ∀ (d : DataFrame) (c : String), c ∈ d.cols →
      c ∈ (L.foldl (fun d c => if c ∈ d.cols then d else d.assignScalar c (Cell.str "")) d).cols := by
  induction L with
  | nil => intro d c h; exact h
  | cons t L' ih =>
    intro d c h
    rw [List.foldl_cons]
    by_cases ht : t ∈ d.cols
    · rw [if_pos ht]; exact ih d c h
    · rw [if_neg ht]
      exact ih _ c (assignScalar_cols_superset d t (Cell.str "") c h)

lemma insertFold_cols_contains (L : List String) :
    ∀ (d : DataFrame) (c : String), c ∈ L →
      c ∈ (L.foldl (fun d c => if c ∈ d.cols then d else d.assignScalar c (Cell.str "")) d).cols := by
  induction L with
  | nil => intro d c h; simp at h
  | cons t L' ih =>
    intro d c h
    rw [List.foldl_cons]
    rcases List.mem_cons.mp h with rfl | h'
    · by_cases ht : c ∈ d.cols
      · rw [if_pos ht]; exact insertFold_cols_mono L' d c ht
      · rw [if_neg ht]
        exact insertFold_cols_mono L' _ c (assignScalar_cols_self d c (Cell.str ""))
    · by_cases ht : t ∈ d.cols
      · rw [if_pos ht]; exact ih d c h'
      · rw [if_neg ht]; exact ih _ c h'

lemma insertFold_getCol_preserve (L : List String) :
    ∀ (d : DataFrame) (c : String), c ∈ d.cols →
      (L.foldl (fun d c => if c ∈ d.cols then d else d.assignScalar c (Cell.str "")) d).getCol c =
        d.getCol c := by
  induction L with
  | nil => intro d c _; rfl
  | cons t L' ih =>
    intro d c h
    rw [List.foldl_cons]
    by_cases ht : t ∈ d.cols
    · rw [if_pos ht]; exact ih d c h
    · rw [if_neg ht]
      have htc : c ≠ t := fun hc => ht (hc ▸ h)
      rw [ih _ c (assignScalar_cols_superset d t (Cell.str "") c h),
        getCol_assignScalar_ne d (Cell.str "") htc]

lemma insertFold_getCol_new (L : List String) :
    ∀ (d : DataFrame) (c : String), c ∈ L → c ∉ d.cols →
      (L.foldl (fun d c => if c ∈ d.cols then d else d.assignScalar c (Cell.str "")) d).getCol c =
        some (List.replicate d.rows.length (Cell.str "")) := by
  induction L with
  | nil => intro d c h; simp at h
  | cons t L' ih =>
    intro d c h hc
    rw [List.foldl_cons]
    rcases List.mem_cons.mp h with rfl | h'
    · rw [if_neg hc,
        insertFold_getCol_preserve L' _ c (assignScalar_cols_self d c (Cell.str "")),
        getCol_assignScalar_self]
    · by_cases ht : t ∈ d.cols
      · rw [if_pos ht]; exact ih d c h' hc
      · rw [if_neg ht]
        by_cases hct : c = t
        · subst hct
          rw [insertFold_getCol_preserve L' _ c (assignScalar_cols_self d c (Cell.str "")),
            getCol_assignScalar_self]
        · have hcn : c ∉ (d.assignScalar t (Cell.str "")).cols := by
            rw [DataFrame.assignScalar]
            simp only [if_neg ht]
            intro hmem
            rcases List.mem_append.mp hmem with hm | hm
            · exact hc hm
            · exact hct (List.mem_singleton.mp hm)
          rw [ih _ c h' hcn, assignScalar_rows_length]

/- ------------------------------------------------------------------ -/
/- Inversion of the write phase and the pipeline success path.        -/
/- ------------------------------------------------------------------ -/

lemma save_target_file_written {df : DataFrame} {writer : List Bool} {out : DataFrame}
    (h : (save_target_file df writer).written = some out) :
    df.select FINAL_COLUMN_ORDER = some out := by
  unfold save_target_file at h
  split at h
  · simp at h
  · next d hsel =>
    split at h
    · rw [hsel]
      exact h
    · simp at h

lemma save_msm_file_written {df : DataFrame} {writer : List Bool} {out : DataFrame}
    (h : (save_msm_file df writer).written = some out) :
    df.select MSM_FINAL_COLUMN_ORDER = some out := by
  unfold save_msm_file at h
  split at h
  · simp at h
  · next d hsel =>
    split at h
    · rw [hsel]
      exact h
    · split at h
      · rw [hsel]
        exact h
      · simp at h

lemma run_strict_ok {input : Except PyError RawCsv} {tdt : Cell → Cell}
    {writer : List Bool} {out : DataFrame}
    (h : run_transformation_pipeline input tdt writer = (true, some out)) :
    ∃ dfv : DataFrame, dfv.select FINAL_COLUMN_ORDER = some out := by
  rw [run_transformation_pipeline] at h
  cases hp : strict_pipeline input tdt writer with
  | error e => rw [hp] at h; simp at h
  | ok w =>
    rw [hp] at h
    have hw : w.written = some out := by
      have h2 := congrArg Prod.snd h
      simpa using h2
    rw [strict_pipeline] at hp
    cases hl : load_source_data input with
    | error e => rw [hl] at hp; simp at hp
    | ok df =>
      rw [hl] at hp
      dsimp only at hp
      cases hv : validate_and_clean tdt (apply_transformations df) with
      | error e => rw [hv] at hp; simp at hp
      | ok r =>
        rw [hv] at hp
        have hsw : save_target_file r.1 writer = w := by
          simpa using hp
        exact ⟨r.1, save_target_file_written (hsw ▸ hw)⟩

lemma run_msm_ok {input : Except PyError RawCsv} {month : String}
    {toNum : Cell → Option ℚ} {writer : List Bool} {out : DataFrame}
    (h : run_msm_transformation_pipeline input month toNum writer = (true, some out)) :
    ∃ dfv : DataFrame, dfv.select MSM_FINAL_COLUMN_ORDER = some out := by
  rw [run_msm_transformation_pipeline] at h
  cases hp : msm_pipeline input month toNum writer with
  | error e => rw [hp] at h; simp at h
  | ok w =>
    rw [hp] at h
    have hw : w.written = some out := by
      have h2 := congrArg Prod.snd h
      simpa using h2
    rw [msm_pipeline] at hp
    cases hl : load_jira_data input with
    | error e => rw [hl] at hp; simp at hp
    | ok df =>
      rw [hl] at hp
      dsimp only at hp
      have hsw : save_msm_file (validate_msm_data
          (apply_msm_transformations df month toNum)) writer = w := by
        simpa using hp
      exact ⟨_, save_msm_file_written (hsw ▸ hw)⟩

/- ------------------------------------------------------------------ -/
/- Claim C2: the writers enforce the published schema exactly.        -/
/- ------------------------------------------------------------------ -/

/-- Claim C2: whatever table reaches a successful write, the written output
has exactly the schema's declared columns in the published order (8 strict,
28 best-effort) in every row; and the MSM validation inserts every declared
column that is absent from the intermediate table, filled with the empty
string. -/
theorem c2_output_schema_enforced :
    (∀ (input : Except PyError RawCsv) (tdt : Cell → Cell) (writer : List Bool)
        (out : DataFrame),
        run_transformation_pipeline input tdt writer = (true, some out) →
        out.cols = FINAL_COLUMN_ORDER ∧
          ∀ r ∈ out.rows, r.map Prod.fst = FINAL_COLUMN_ORDER) ∧
    (∀ (input : Except PyError RawCsv) (month : String) (toNum : Cell → Option ℚ)
        (writer : List Bool) (out : DataFrame),
        run_msm_transformation_pipeline input month toNum writer = (true, some out) →
        out.cols = MSM_FINAL_COLUMN_ORDER ∧
          ∀ r ∈ out.rows, r.map Prod.fst = MSM_FINAL_COLUMN_ORDER) ∧
    (∀ (d : DataFrame) (c : String), c ∈ MSM_FINAL_COLUMN_ORDER → c ∉ d.cols →
        ∃ vs, (validate_msm_data d).getCol c = some vs ∧ ∀ v ∈ vs, v = Cell.str "") ∧
    FINAL_COLUMN_ORDER.length = 8 ∧ MSM_FINAL_COLUMN_ORDER.length = 28 := by
  refine ⟨?_, ?_, ?_, rfl, rfl⟩
  · intro input tdt writer out h
    obtain ⟨dfv, hsel⟩ := run_strict_ok h
    exact select_some_spec hsel
  · intro input month toNum writer out h
    obtain ⟨dfv, hsel⟩ := run_msm_ok h
    exact select_some_spec hsel
  · intro d c hcL hcd
    obtain ⟨df0, hdf0⟩ : ∃ df0 : DataFrame, df0 = MSM_FINAL_COLUMN_ORDER.foldl
        (fun d c => if c ∈ d.cols then d else d.assignScalar c (Cell.str "")) d := ⟨_, rfl⟩
    have hj : "JIRA ID" ∈ df0.cols := by
      rw [hdf0]
      exact insertFold_cols_contains MSM_FINAL_COLUMN_ORDER d "JIRA ID" (by decide)
    have hc0 : c ∈ df0.cols := by
      rw [hdf0]
      exact insertFold_cols_contains MSM_FINAL_COLUMN_ORDER d c hcL
    have h0 : df0.getCol c = some (List.replicate d.rows.length (Cell.str "")) := by
      rw [hdf0]
      exact insertFold_getCol_new MSM_FINAL_COLUMN_ORDER d c hcL hcd
    have hdrop : df0.dropnaSubset "JIRA ID" = some ⟨df0.cols,
        df0.rows.filter (fun r => decide ((alookup "JIRA ID" r).getD Cell.na ≠ Cell.na))⟩ := by
      rw [DataFrame.dropnaSubset, if_pos hj]
    have hv : validate_msm_data d = DataFrame.fillnaAll ⟨df0.cols,
        df0.rows.filter (fun r => decide ((alookup "JIRA ID" r).getD Cell.na ≠ Cell.na))⟩ := by
      rw [validate_msm_data]
      rw [← hdf0, hdrop]
      rfl
    rw [hv]
    have hcf : c ∈ (DataFrame.fillnaAll ⟨df0.cols,
        df0.rows.filter (fun r => decide ((alookup "JIRA ID" r).getD Cell.na ≠ Cell.na))⟩).cols := by
      rw [fillnaAll_cols]
      exact hc0
    refine ⟨_, getCol_of_mem hcf, ?_⟩
    rw [fillnaAll_rows]
    intro v hvmem
    rw [List.map_map] at hvmem
    obtain ⟨r0, hr0, rfl⟩ := List.mem_map.mp hvmem
    have hr0' : r0 ∈ df0.rows := List.mem_of_mem_filter hr0
    have hval : (alookup c r0).getD Cell.na = Cell.str "" := by
      obtain ⟨_, hvs⟩ := getCol_eq_some h0
      have hmm : (alookup c r0).getD Cell.na ∈
          df0.rows.map (fun r => (alookup c r).getD Cell.na) :=
        List.mem_map.mpr ⟨r0, hr0', rfl⟩
      rw [← hvs] at hmm
      exact List.eq_of_mem_replicate hmm
    show (alookup c (fillRow r0)).getD Cell.na = Cell.str ""
    rw [alookup_fillRow]
    cases hlk : alookup c r0 with
    | none => rw [hlk] at hval; simp at hval
    | some w =>
      rw [hlk] at hval
      simp only [Option.getD] at hval
      subst hval
      simp [fillCell]

def applensDemoCsv : RawCsv :=
  ⟨["Issue Key", "Issue Type", "Updated", "Status", "Resolved"],
   [["K-1", "Bug", "2024-01-02", "Open", ""]]⟩

def applensDemoOut : DataFrame :=
  match (run_transformation_pipeline (Except.ok applensDemoCsv) (fun c => c) [true]).2 with
  | some d => d
  | none => ⟨[], []⟩

def msmDemoCsv : RawCsv := ⟨["Issue Key"], [["CSI-1"]]⟩

def msmDemoOut : DataFrame :=
  match (run_msm_transformation_pipeline (Except.ok msmDemoCsv) "January"
      (fun _ => none) [true]).2 with
  | some d => d
  | none => ⟨[], []⟩

set_option maxRecDepth 8192 in
/-- Witness for C2: both pipelines run to a successful write on concrete
inputs, and the written tables carry exactly the published column lists. -/
theorem c2_output_schema_enforced_witness :
    run_transformation_pipeline (Except.ok applensDemoCsv) (fun c => c) [true] =
        (true, some applensDemoOut) ∧
      applensDemoOut.cols = FINAL_COLUMN_ORDER ∧
      run_msm_transformation_pipeline (Except.ok msmDemoCsv) "January" (fun _ => none)
          [true] = (true, some msmDemoOut) ∧
      msmDemoOut.cols = MSM_FINAL_COLUMN_ORDER := by
  have h1 : run_transformation_pipeline (Except.ok applensDemoCsv) (fun c => c) [true] =
      (true, some applensDemoOut) := rfl
  have h2 : run_msm_transformation_pipeline (Except.ok msmDemoCsv) "January"
      (fun _ => none) [true] = (true, some msmDemoOut) := rfl
  exact ⟨h1,
    (c2_output_schema_enforced.1 (Except.ok applensDemoCsv) (fun c => c) [true]
      applensDemoOut h1).1,
    h2,
    (c2_output_schema_enforced.2.1 (Except.ok msmDemoCsv) "January" (fun _ => none) [true]
      msmDemoOut h2).1⟩

/- ------------------------------------------------------------------ -/
/- Operation lemmas for the MSM field derivation.                     -/
/- ------------------------------------------------------------------ -/

lemma zip_map_fst {α β : Type} : ∀ (l1 : List α) (l2 : List β), l1.length = l2.length →
    (l1.zip l2).map Prod.fst = l1 := by
  intro l1
  induction l1 with
  | nil => intro l2 _; simp
  | cons a t ih =>
    intro l2 h
    cases l2 with
    | nil => simp at h
    | cons b t2 =>
      rw [List.zip_cons_cons, List.map_cons]
      rw [ih t2 (by simpa using h)]

lemma zip_map_snd {α β : Type} : ∀ (l1 : List α) (l2 : List β), l1.length = l2.length →
    (l1.zip l2).map Prod.snd = l2 := by
  intro l1
  induction l1 with
  | nil =>
    intro l2 h
    cases l2 with
    | nil => simp
    | cons b t2 => simp at h
  | cons a t ih =>
    intro l2 h
    cases l2 with
    | nil => simp at h
    | cons b t2 =>
      rw [List.zip_cons_cons, List.map_cons]
      rw [ih t2 (by simpa using h)]

lemma getCol_length {df : DataFrame} {c : String} {vs : List Cell}
    (h : df.getCol c = some vs) : vs.length = df.rows.length := by
  obtain ⟨_, rfl⟩ := getCol_eq_some h
  simp

lemma getColD_length_of_mem {df : DataFrame} {c : String} (h : c ∈ df.cols) :
    (df.getColD c).length = df.rows.length := by
  rw [DataFrame.getColD, getCol_of_mem h]
  simp

lemma getColD_of_getCol {df : DataFrame} {c : String} {vs : List Cell}
    (h : df.getCol c = some vs) : df.getColD c = vs := by
  rw [DataFrame.getColD, h]
  rfl

lemma assignScalar_cols (df : DataFrame) (c : String) (v : Cell) :
    (df.assignScalar c v).cols = if c ∈ df.cols then df.cols else df.cols ++ [c] := rfl

lemma assignList_cols (df : DataFrame) (c : String) (vs : List Cell) :
    (df.assignList c vs).cols = if c ∈ df.cols then df.cols else df.cols ++ [c] := by
  rw [DataFrame.assignList]
  by_cases h : df.cols = []
  · rw [if_pos h, h]
    simp
  · rw [if_neg h]

lemma assignList_rows_length (df : DataFrame) (c : String) (vs : List Cell) (n : Nat)
    (h1 : df.rows.length = n) (h2 : vs.length = n) :
    (df.assignList c vs).rows.length = n := by
  rw [DataFrame.assignList]
  by_cases h : df.cols = []
  · rw [if_pos h]
    simp [h2]
  · rw [if_neg h]
    simp [h1, h2]

lemma assignList_rows_length_nil (df : DataFrame) (c : String) (vs : List Cell)
    (h : df.cols = []) : (df.assignList c vs).rows.length = vs.length := by
  rw [DataFrame.assignList, if_pos h]
  simp

lemma getCol_assignList_self (df : DataFrame) (c : String) (vs : List Cell)
    (h : df.rows.length = vs.length) :
    (df.assignList c vs).getCol c = some vs := by
  rw [DataFrame.assignList]
  by_cases hnil : df.cols = []
  · rw [if_pos hnil]
    have hc : c ∈ (DataFrame.mk [c] (vs.map (fun v => [(c, v)]))).cols := by
      show c ∈ [c]
      simp
    rw [getCol_of_mem hc]
    congr 1
    show (vs.map (fun v => [(c, v)])).map (fun r => (alookup c r).getD Cell.na) = vs
    rw [List.map_map]
    have hcomp : ((fun r => (alookup c r).getD Cell.na) ∘ fun v => [(c, v)]) = id := by
      funext v
      simp [Function.comp, alookup]
    rw [hcomp, List.map_id]
  · rw [if_neg hnil]
    have hc : c ∈ (DataFrame.mk (if c ∈ df.cols then df.cols else df.cols ++ [c])
        ((df.rows.zip vs).map (fun p => upsert p.1 c p.2))).cols := by
      show c ∈ (if c ∈ df.cols then df.cols else df.cols ++ [c])
      by_cases h2 : c ∈ df.cols
      · rwa [if_pos h2]
      · rw [if_neg h2]
        simp
    rw [getCol_of_mem hc]
    congr 1
    show ((df.rows.zip vs).map (fun p => upsert p.1 c p.2)).map
      (fun r => (alookup c r).getD Cell.na) = vs
    rw [List.map_map]
    have hcg : ∀ p ∈ df.rows.zip vs,
        ((fun r => (alookup c r).getD Cell.na) ∘ fun p => upsert p.1 c p.2) p = p.2 := by
      intro p _
      simp [Function.comp, alookup_upsert_self]
    rw [List.map_congr_left hcg]
    exact zip_map_snd df.rows vs h

lemma getCol_assignList_ne (df : DataFrame) (c : String) (vs : List Cell) (c' : String)
    (hne : c' ≠ c) (h : df.rows.length = vs.length) :
    (df.assignList c vs).getCol c' = df.getCol c' := by
  rw [DataFrame.assignList]
  by_cases hnil : df.cols = []
  · rw [if_pos hnil]
    rw [DataFrame.getCol, DataFrame.getCol, hnil]
    simp [hne]
  · rw [if_neg hnil]
    by_cases h2 : c' ∈ df.cols
    · have hc : c' ∈ (DataFrame.mk (if c ∈ df.cols then df.cols else df.cols ++ [c])
          ((df.rows.zip vs).map (fun p => upsert p.1 c p.2))).cols := by
        show c' ∈ (if c ∈ df.cols then df.cols else df.cols ++ [c])
        by_cases h3 : c ∈ df.cols
        · rwa [if_pos h3]
        · rw [if_neg h3]
          exact List.mem_append.mpr (Or.inl h2)
      rw [getCol_of_mem hc, getCol_of_mem h2]
      congr 1
      show ((df.rows.zip vs).map (fun p => upsert p.1 c p.2)).map
        (fun r => (alookup c' r).getD Cell.na) = _
      rw [List.map_map]
      have hcg : ∀ p ∈ df.rows.zip vs,
          ((fun r => (alookup c' r).getD Cell.na) ∘ fun p => upsert p.1 c p.2) p =
            ((fun r => (alookup c' r).getD Cell.na) ∘ Prod.fst) p := by
        intro p _
        simp [Function.comp, alookup_upsert_ne _ _ _ _ hne]
      rw [List.map_congr_left hcg, ← List.map_map]
      rw [zip_map_fst df.rows vs h]
    · have hcn : c' ∉ (if c ∈ df.cols then df.cols else df.cols ++ [c]) := by
        by_cases h3 : c ∈ df.cols
        · rw [if_pos h3]
          exact h2
        · rw [if_neg h3]
          intro hmem
          rcases List.mem_append.mp hmem with hm | hm
          · exact h2 hm
          · exact hne (List.mem_singleton.mp hm)
      rw [DataFrame.getCol, DataFrame.getCol, if_neg h2, if_neg hcn]

lemma setFrom_cols (msm df : DataFrame) (t s : String) :
    (setFrom msm df t s).cols = if t ∈ msm.cols then msm.cols else msm.cols ++ [t] := by
  rw [setFrom]
  cases h : df.getCol s with
  | some vs => rw [assignList_cols]
  | none => rfl

lemma setFrom_rows_length (msm df : DataFrame) (t s : String) (n : Nat)
    (h1 : msm.rows.length = n) (h2 : df.rows.length = n) :
    (setFrom msm df t s).rows.length = n := by
  rw [setFrom]
  cases h : df.getCol s with
  | some vs =>
    exact assignList_rows_length msm t vs n h1 ((getCol_length h).trans h2)
  | none =>
    rw [assignScalar_rows_length]
    exact h1

lemma setFrom_getCol_ne (msm df : DataFrame) (t s c : String) (hne : c ≠ t)
    (h : msm.rows.length = df.rows.length) :
    (setFrom msm df t s).getCol c = msm.getCol c := by
  rw [setFrom]
  cases hg : df.getCol s with
  | some vs =>
    exact getCol_assignList_ne msm t vs c hne (h.trans (getCol_length hg).symm)
  | none => exact getCol_assignScalar_ne msm (Cell.str "") hne

lemma setFrom_getCol_self (msm df : DataFrame) (t s : String)
    (h : msm.rows.length = df.rows.length) :
    ∃ vs, vs.length = msm.rows.length ∧ (setFrom msm df t s).getCol t = some vs := by
  rw [setFrom]
  cases hg : df.getCol s with
  | some vs =>
    refine ⟨vs, ?_, getCol_assignList_self msm t vs (h.trans (getCol_length hg).symm)⟩
    rw [getCol_length hg, h]
  | none =>
    refine ⟨List.replicate msm.rows.length (Cell.str ""), by simp, ?_⟩
    exact getCol_assignScalar_self msm t (Cell.str "")

lemma assignPriority_cols (msm df : DataFrame) :
    (assignPriority msm df).cols =
      if "Priority" ∈ msm.cols then msm.cols else msm.cols ++ ["Priority"] := by
  rw [assignPriority]
  by_cases h : "Priority" ∈ df.cols
  · rw [if_pos h, assignList_cols]
  · rw [if_neg h]
    rfl

lemma assignPriority_rows_length (msm df : DataFrame) (n : Nat)
    (h1 : msm.rows.length = n) (h2 : df.rows.length = n) :
    (assignPriority msm df).rows.length = n := by
  rw [assignPriority]
  by_cases h : "Priority" ∈ df.cols
  · rw [if_pos h]
    refine assignList_rows_length msm _ _ n h1 ?_
    rw [List.length_map, getColD_length_of_mem h]
    exact h2
  · rw [if_neg h, assignScalar_rows_length]
    exact h1

lemma assignPriority_getCol_ne (msm df : DataFrame) (c : String)
    (hne : c ≠ "Priority") (h1 : msm.rows.length = df.rows.length) :
    (assignPriority msm df).getCol c = msm.getCol c := by
  rw [assignPriority]
  by_cases h : "Priority" ∈ df.cols
  · rw [if_pos h]
    refine getCol_assignList_ne msm _ _ c hne ?_
    rw [List.length_map, getColD_length_of_mem h]
    exact h1
  · rw [if_neg h]
    exact getCol_assignScalar_ne msm (Cell.str "P3 (Low)") hne

lemma assignTimeSpent_cols (msm df : DataFrame) (toNum : Cell → Option ℚ) :
    (assignTimeSpent msm df toNum).cols =
      if "Time Spent()" ∈ msm.cols then msm.cols else msm.cols ++ ["Time Spent()"] := by
  rw [assignTimeSpent]
  by_cases h : "Worklog" ∈ df.cols
  · rw [if_pos h, assignList_cols]
  · rw [if_neg h]
    rfl

lemma assignTimeSpent_rows_length (msm df : DataFrame) (toNum : Cell → Option ℚ) (n : Nat)
    (h1 : msm.rows.length = n) (h2 : df.rows.length = n) :
    (assignTimeSpent msm df toNum).rows.length = n := by
  rw [assignTimeSpent]
  by_cases h : "Worklog" ∈ df.cols
  · rw [if_pos h]
    refine assignList_rows_length msm _ _ n h1 ?_
    rw [List.length_map, getColD_length_of_mem h]
    exact h2
  · rw [if_neg h, assignScalar_rows_length]
    exact h1

lemma assignTimeSpent_getCol_ne (msm df : DataFrame) (toNum : Cell → Option ℚ)
    (c : String) (hne : c ≠ "Time Spent()") (h1 : msm.rows.length = df.rows.length) :
    (assignTimeSpent msm df toNum).getCol c = msm.getCol c := by
  rw [assignTimeSpent]
  by_cases h : "Worklog" ∈ df.cols
  · rw [if_pos h]
    refine getCol_assignList_ne msm _ _ c hne ?_
    rw [List.length_map, getColD_length_of_mem h]
    exact h1
  · rw [if_neg h]
    exact getCol_assignScalar_ne msm (Cell.num 0) hne

/- ------------------------------------------------------------------ -/
/- Master facts about apply_msm_transformations.                      -/
/- ------------------------------------------------------------------ -/

lemma getCol_assignList_self_nil (df : DataFrame) (c : String) (vs : List Cell)
    (hnil : df.cols = []) : (df.assignList c vs).getCol c = some vs := by
  rw [DataFrame.assignList, if_pos hnil]
  have hc : c ∈ (DataFrame.mk [c] (vs.map (fun v => [(c, v)]))).cols := by
    show c ∈ [c]
    simp
  rw [getCol_of_mem hc]
  congr 1
  show (vs.map (fun v => [(c, v)])).map (fun r => (alookup c r).getD Cell.na) = vs
  rw [List.map_map]
  have hcomp : ((fun r => (alookup c r).getD Cell.na) ∘ fun v => [(c, v)]) = id := by
    funext v
    simp [Function.comp, alookup]
  rw [hcomp, List.map_id]

lemma apply_msm_master (df : DataFrame) (month : String) (toNum : Cell → Option ℚ) :
    (apply_msm_transformations df month toNum).cols = MSM_FINAL_COLUMN_ORDER ∧
    (apply_msm_transformations df month toNum).rows.length = df.rows.length ∧
    (apply_msm_transformations df month toNum).getCol "S.No" =
      some ((List.range df.rows.length).map (fun (i : ℕ) => Cell.num ((i : ℚ) + 1))) ∧
    ∃ ids : List Cell, ids.length = df.rows.length ∧
      (apply_msm_transformations df month toNum).getCol "JIRA ID" = some ids ∧
      (apply_msm_transformations df month toNum).getCol "Resolution SLA Met?" =
        some (ids.map (fun x => Cell.str (resolution_sla x))) := by
  obtain ⟨m1, hm1⟩ : ∃ m : DataFrame, m = DataFrame.assignList ⟨[], []⟩ "S.No"
      ((List.range df.rows.length).map (fun (i : ℕ) => Cell.num ((i : ℚ) + 1))) := ⟨_, rfl⟩
  have l1 : m1.rows.length = df.rows.length := by
    rw [hm1, assignList_rows_length_nil _ _ _ rfl]
    simp
  have c1 : m1.cols = MSM_FINAL_COLUMN_ORDER.take 1 := by
    rw [hm1, assignList_cols]
    decide
  have s1 : m1.getCol "S.No" =
      some ((List.range df.rows.length).map (fun (i : ℕ) => Cell.num ((i : ℚ) + 1))) := by
    rw [hm1]
    exact getCol_assignList_self_nil _ _ _ rfl
  obtain ⟨m2, hm2⟩ : ∃ m : DataFrame, m = setFrom m1 df "Tower" "Project Name" := ⟨_, rfl⟩
  have l2 : m2.rows.length = df.rows.length := by
    rw [hm2]
    exact setFrom_rows_length m1 df _ _ df.rows.length l1 rfl
  have c2 : m2.cols = MSM_FINAL_COLUMN_ORDER.take 2 := by
    rw [hm2, setFrom_cols, c1]
    decide
  have s2 : m2.getCol "S.No" = m1.getCol "S.No" := by
    rw [hm2]
    exact setFrom_getCol_ne m1 df "Tower" "Project Name" "S.No" (by decide) l1
  obtain ⟨m3, hm3⟩ : ∃ m : DataFrame,
      m = m2.assignScalar "Application" (Cell.str "HMOF") := ⟨_, rfl⟩
  have l3 : m3.rows.length = df.rows.length := by
    rw [hm3, assignScalar_rows_length]
    exact l2
  have c3 : m3.cols = MSM_FINAL_COLUMN_ORDER.take 3 := by
    rw [hm3, assignScalar_cols, c2]
    decide
  have s3 : m3.getCol "S.No" = m2.getCol "S.No" := by
    rw [hm3]
    exact getCol_assignScalar_ne m2 (Cell.str "HMOF")
      (show ("S.No" : String) ≠ "Application" by decide)
  obtain ⟨m4, hm4⟩ : ∃ m : DataFrame, m = setFrom m3 df "JIRA ID" "Issue Key" := ⟨_, rfl⟩
  obtain ⟨ids, hidlen0, hid4⟩ := setFrom_getCol_self m3 df "JIRA ID" "Issue Key" l3
  have hidlen : ids.length = df.rows.length := hidlen0.trans l3
  have j4 : m4.getCol "JIRA ID" = some ids := by
    rw [hm4]
    exact hid4
  have l4 : m4.rows.length = df.rows.length := by
    rw [hm4]
    exact setFrom_rows_length m3 df _ _ df.rows.length l3 rfl
  have c4 : m4.cols = MSM_FINAL_COLUMN_ORDER.take 4 := by
    rw [hm4, setFrom_cols, c3]
    decide
  have s4 : m4.getCol "S.No" = m3.getCol "S.No" := by
    rw [hm4]
    exact setFrom_getCol_ne m3 df "JIRA ID" "Issue Key" "S.No" (by decide) l3
  obtain ⟨m5, hm5⟩ : ∃ m : DataFrame, m = assignPriority m4 df := ⟨_, rfl⟩
  have l5 : m5.rows.length = df.rows.length := by
    rw [hm5]
    exact assignPriority_rows_length m4 df df.rows.length l4 rfl
  have c5 : m5.cols = MSM_FINAL_COLUMN_ORDER.take 5 := by
    rw [hm5, assignPriority_cols, c4]
    decide
  have s5 : m5.getCol "S.No" = m4.getCol "S.No" := by
    rw [hm5]
    exact assignPriority_getCol_ne m4 df "S.No" (by decide) l4
  have j5 : m5.getCol "JIRA ID" = m4.getCol "JIRA ID" := by
    rw [hm5]
    exact assignPriority_getCol_ne m4 df "JIRA ID" (by decide) l4
  obtain ⟨m6, hm6⟩ : ∃ m : DataFrame, m = setFrom m5 df "Issue Summary" "Summary" := ⟨_, rfl⟩
  have l6 : m6.rows.length = df.rows.length := by
    rw [hm6]
    exact setFrom_rows_length m5 df _ _ df.rows.length l5 rfl
  have c6 : m6.cols = MSM_FINAL_COLUMN_ORDER.take 6 := by
    rw [hm6, setFrom_cols, c5]
    decide
  have s6 : m6.getCol "S.No" = m5.getCol "S.No" := by
    rw [hm6]
    exact setFrom_getCol_ne m5 df "Issue Summary" "Summary" "S.No" (by decide) l5
  have j6 : m6.getCol "JIRA ID" = m5.getCol "JIRA ID" := by
    rw [hm6]
    exact setFrom_getCol_ne m5 df "Issue Summary" "Summary" "JIRA ID" (by decide) l5
  obtain ⟨m7, hm7⟩ : ∃ m : DataFrame, m = setFrom m6 df "Assignee" "Assignee" := ⟨_, rfl⟩
  have l7 : m7.rows.length = df.rows.length := by
    rw [hm7]
    exact setFrom_rows_length m6 df _ _ df.rows.length l6 rfl
  have c7 : m7.cols = MSM_FINAL_COLUMN_ORDER.take 7 := by
    rw [hm7, setFrom_cols, c6]
    decide
  have s7 : m7.getCol "S.No" = m6.getCol "S.No" := by
    rw [hm7]
    exact setFrom_getCol_ne m6 df "Assignee" "Assignee" "S.No" (by decide) l6
  have j7 : m7.getCol "JIRA ID" = m6.getCol "JIRA ID" := by
    rw [hm7]
    exact setFrom_getCol_ne m6 df "Assignee" "Assignee" "JIRA ID" (by decide) l6
  obtain ⟨m8, hm8⟩ : ∃ m : DataFrame,
      m = setFrom m7 df "Platform / Content / Data" "Platform" := ⟨_, rfl⟩
  have l8 : m8.rows.length = df.rows.length := by
    rw [hm8]
    exact setFrom_rows_length m7 df _ _ df.rows.length l7 rfl
  have c8 : m8.cols = MSM_FINAL_COLUMN_ORDER.take 8 := by
    rw [hm8, setFrom_cols, c7]
    decide
  have s8 : m8.getCol "S.No" = m7.getCol "S.No" := by
    rw [hm8]
    exact setFrom_getCol_ne m7 df "Platform / Content / Data" "Platform" "S.No"
      (by decide) l7
  have j8 : m8.getCol "JIRA ID" = m7.getCol "JIRA ID" := by
    rw [hm8]
    exact setFrom_getCol_ne m7 df "Platform / Content / Data" "Platform" "JIRA ID"
      (by decide) l7
  obtain ⟨m9, hm9⟩ : ∃ m : DataFrame, m = setFrom m8 df "Status" "Status" := ⟨_, rfl⟩
  have l9 : m9.rows.length = df.rows.length := by
    rw [hm9]
    exact setFrom_rows_length m8 df _ _ df.rows.length l8 rfl
  have c9 : m9.cols = MSM_FINAL_COLUMN_ORDER.take 9 := by
    rw [hm9, setFrom_cols, c8]
    decide
  have s9 : m9.getCol "S.No" = m8.getCol "S.No" := by
    rw [hm9]
    exact setFrom_getCol_ne m8 df "Status" "Status" "S.No" (by decide) l8
  have j9 : m9.getCol "JIRA ID" = m8.getCol "JIRA ID" := by
    rw [hm9]
    exact setFrom_getCol_ne m8 df "Status" "Status" "JIRA ID" (by decide) l8
  obtain ⟨m10, hm10⟩ : ∃ m : DataFrame, m = setFrom m9 df "Issue Status" "Status" := ⟨_, rfl⟩
  have l10 : m10.rows.length = df.rows.length := by
    rw [hm10]
    exact setFrom_rows_length m9 df _ _ df.rows.length l9 rfl
  have c10 : m10.cols = MSM_FINAL_COLUMN_ORDER.take 10 := by
    rw [hm10, setFrom_cols, c9]
    decide
  have s10 : m10.getCol "S.No" = m9.getCol "S.No" := by
    rw [hm10]
    exact setFrom_getCol_ne m9 df "Issue Status" "Status" "S.No" (by decide) l9
  have j10 : m10.getCol "JIRA ID" = m9.getCol "JIRA ID" := by
    rw [hm10]
    exact setFrom_getCol_ne m9 df "Issue Status" "Status" "JIRA ID" (by decide) l9
  obtain ⟨m11, hm11⟩ : ∃ m : DataFrame,
      m = m10.assignScalar "Month" (Cell.str month) := ⟨_, rfl⟩
  have l11 : m11.rows.length = df.rows.length := by
    rw [hm11, assignScalar_rows_length]
    exact l10
  have c11 : m11.cols = MSM_FINAL_COLUMN_ORDER.take 11 := by
    rw [hm11, assignScalar_cols, c10]
    decide
  have s11 : m11.getCol "S.No" = m10.getCol "S.No" := by
    rw [hm11]
    exact getCol_assignScalar_ne m10 (Cell.str month)
      (show ("S.No" : String) ≠ "Month" by decide)
  have j11 : m11.getCol "JIRA ID" = m10.getCol "JIRA ID" := by
    rw [hm11]
    exact getCol_assignScalar_ne m10 (Cell.str month)
      (show ("JIRA ID" : String) ≠ "Month" by decide)
  obtain ⟨m12, hm12⟩ : ∃ m : DataFrame,
      m = setFrom m11 df "Issue Creation Time mm/dd/yyyy hh:mm:ss am/pm" "Created" := ⟨_, rfl⟩
  have l12 : m12.rows.length = df.rows.length := by
    rw [hm12]
    exact setFrom_rows_length m11 df _ _ df.rows.length l11 rfl
  have c12 : m12.cols = MSM_FINAL_COLUMN_ORDER.take 12 := by
    rw [hm12, setFrom_cols, c11]
    decide
  have s12 : m12.getCol "S.No" = m11.getCol "S.No" := by
    rw [hm12]
    exact setFrom_getCol_ne m11 df _ "Created" "S.No" (by decide) l11
  have j12 : m12.getCol "JIRA ID" = m11.getCol "JIRA ID" := by
    rw [hm12]
    exact setFrom_getCol_ne m11 df _ "Created" "JIRA ID" (by decide) l11
  obtain ⟨m13, hm13⟩ : ∃ m : DataFrame,
      m = setFrom m12 df "Issue Assigned Time (CTS)mm/dd/yyyy hh:mm:ss am/pm" "Created" :=
    ⟨_, rfl⟩
  have l13 : m13.rows.length = df.rows.length := by
    rw [hm13]
    exact setFrom_rows_length m12 df _ _ df.rows.length l12 rfl
  have c13 : m13.cols = MSM_FINAL_COLUMN_ORDER.take 13 := by
    rw [hm13, setFrom_cols, c12]
    decide
  have s13 : m13.getCol "S.No" = m12.getCol "S.No" := by
    rw [hm13]
    exact setFrom_getCol_ne m12 df _ "Created" "S.No" (by decide) l12
  have j13 : m13.getCol "JIRA ID" = m12.getCol "JIRA ID" := by
    rw [hm13]
    exact setFrom_getCol_ne m12 df _ "Created" "JIRA ID" (by decide) l12
  obtain ⟨m14, hm14⟩ : ∃ m : DataFrame,
      m = setFrom m13 df "CTS Response Time mm/dd/yyyy hh:mm:ss am/pm" "Updated" := ⟨_, rfl⟩
  have l14 : m14.rows.length = df.rows.length := by
    rw [hm14]
    exact setFrom_rows_length m13 df _ _ df.rows.length l13 rfl
  have c14 : m14.cols = MSM_FINAL_COLUMN_ORDER.take 14 := by
    rw [hm14, setFrom_cols, c13]
    decide
  have s14 : m14.getCol "S.No" = m13.getCol "S.No" := by
    rw [hm14]
    exact setFrom_getCol_ne m13 df _ "Updated" "S.No" (by decide) l13
  have j14 : m14.getCol "JIRA ID" = m13.getCol "JIRA ID" := by
    rw [hm14]
    exact setFrom_getCol_ne m13 df _ "Updated" "JIRA ID" (by decide) l13
  obtain ⟨m15, hm15⟩ : ∃ m : DataFrame,
      m = m14.assignScalar "Response SLA Met?" (Cell.str "Yes") := ⟨_, rfl⟩
  have l15 : m15.rows.length = df.rows.length := by
    rw [hm15, assignScalar_rows_length]
    exact l14
  have c15 : m15.cols = MSM_FINAL_COLUMN_ORDER.take 15 := by
    rw [hm15, assignScalar_cols, c14]
    decide
  have s15 : m15.getCol "S.No" = m14.getCol "S.No" := by
    rw [hm15]
    exact getCol_assignScalar_ne m14 (Cell.str "Yes")
      (show ("S.No" : String) ≠ "Response SLA Met?" by decide)
  have j15 : m15.getCol "JIRA ID" = m14.getCol "JIRA ID" := by
    rw [hm15]
    exact getCol_assignScalar_ne m14 (Cell.str "Yes")
      (show ("JIRA ID" : String) ≠ "Response SLA Met?" by decide)
  obtain ⟨m16, hm16⟩ : ∃ m : DataFrame,
      m = setFrom m15 df "CTS Resolution Time mm/dd/yyyy hh:mm:ss am/pm" "Resolved" :=
    ⟨_, rfl⟩
  have l16 : m16.rows.length = df.rows.length := by
    rw [hm16]
    exact setFrom_rows_length m15 df _ _ df.rows.length l15 rfl
  have c16 : m16.cols = MSM_FINAL_COLUMN_ORDER.take 16 := by
    rw [hm16, setFrom_cols, c15]
    decide
  have s16 : m16.getCol "S.No" = m15.getCol "S.No" := by
    rw [hm16]
    exact setFrom_getCol_ne m15 df _ "Resolved" "S.No" (by decide) l15
  have j16 : m16.getCol "JIRA ID" = some ids := by
    rw [hm16, setFrom_getCol_ne m15 df _ "Resolved" "JIRA ID" (by decide) l15,
      j15, j14, j13, j12, j11, j10, j9, j8, j7, j6, j5]
    exact j4
  have hgd : m16.getColD "JIRA ID" = ids := getColD_of_getCol j16
  obtain ⟨m17, hm17⟩ : ∃ m : DataFrame, m = m16.assignList "Resolution SLA Met?"
      ((m16.getColD "JIRA ID").map (fun x => Cell.str (resolution_sla x))) := ⟨_, rfl⟩
  have hvl : ((m16.getColD "JIRA ID").map
      (fun x => Cell.str (resolution_sla x))).length = df.rows.length := by
    rw [List.length_map, hgd]
    exact hidlen
  have l17 : m17.rows.length = df.rows.length := by
    rw [hm17]
    exact assignList_rows_length m16 _ _ df.rows.length l16 hvl
  have c17 : m17.cols = MSM_FINAL_COLUMN_ORDER.take 17 := by
    rw [hm17, assignList_cols, c16]
    decide
  have s17 : m17.getCol "S.No" = m16.getCol "S.No" := by
    rw [hm17]
    exact getCol_assignList_ne m16 _ _ "S.No" (by decide) (l16.trans hvl.symm)
  have j17 : m17.getCol "JIRA ID" = some ids := by
    rw [hm17, getCol_assignList_ne m16 _ _ "JIRA ID" (by decide) (l16.trans hvl.symm)]
    exact j16
  have sla17 : m17.getCol "Resolution SLA Met?" =
      some (ids.map (fun x => Cell.str (resolution_sla x))) := by
    rw [hm17, getCol_assignList_self m16 _ _ (l16.trans hvl.symm), hgd]
  obtain ⟨m18, hm18⟩ : ∃ m : DataFrame,
      m = setFrom m17 df "Last updated Date" "Updated" := ⟨_, rfl⟩
  have l18 : m18.rows.length = df.rows.length := by
    rw [hm18]
    exact setFrom_rows_length m17 df _ _ df.rows.length l17 rfl
  have c18 : m18.cols = MSM_FINAL_COLUMN_ORDER.take 18 := by
    rw [hm18, setFrom_cols, c17]
    decide
  have s18 : m18.getCol "S.No" = m17.getCol "S.No" := by
    rw [hm18]
    exact setFrom_getCol_ne m17 df _ "Updated" "S.No" (by decide) l17
  have j18 : m18.getCol "JIRA ID" = some ids := by
    rw [hm18, setFrom_getCol_ne m17 df _ "Updated" "JIRA ID" (by decide) l17]
    exact j17
  have sla18 : m18.getCol "Resolution SLA Met?" = m17.getCol "Resolution SLA Met?" := by
    rw [hm18]
    exact setFrom_getCol_ne m17 df _ "Updated" "Resolution SLA Met?" (by decide) l17
  obtain ⟨m19, hm19⟩ : ∃ m : DataFrame,
      m = m18.assignScalar "Service Category" (Cell.str "") := ⟨_, rfl⟩
  have l19 : m19.rows.length = df.rows.length := by
    rw [hm19, assignScalar_rows_length]
    exact l18
  have c19 : m19.cols = MSM_FINAL_COLUMN_ORDER.take 19 := by
    rw [hm19, assignScalar_cols, c18]
    decide
  have s19 : m19.getCol "S.No" = m18.getCol "S.No" := by
    rw [hm19]
    exact getCol_assignScalar_ne m18 (Cell.str "")
      (show ("S.No" : String) ≠ "Service Category" by decide)
  have j19 : m19.getCol "JIRA ID" = some ids := by
    rw [hm19, getCol_assignScalar_ne m18 (Cell.str "")
      (show ("JIRA ID" : String) ≠ "Service Category" by decide)]
    exact j18
  have sla19 : m19.getCol "Resolution SLA Met?" = m18.getCol "Resolution SLA Met?" := by
    rw [hm19]
    exact getCol_assignScalar_ne m18 (Cell.str "")
      (show ("Resolution SLA Met?" : String) ≠ "Service Category" by decide)
  obtain ⟨m20, hm20⟩ : ∃ m : DataFrame,
      m = m19.assignScalar "Request Type" (Cell.str "") := ⟨_, rfl⟩
  have l20 : m20.rows.length = df.rows.length := by
    rw [hm20, assignScalar_rows_length]
    exact l19
  have c20 : m20.cols = MSM_FINAL_COLUMN_ORDER.take 20 := by
    rw [hm20, assignScalar_cols, c19]
    decide
  have s20 : m20.getCol "S.No" = m19.getCol "S.No" := by
    rw [hm20]
    exact getCol_assignScalar_ne m19 (Cell.str "")
      (show ("S.No" : String) ≠ "Request Type" by decide)
  have j20 : m20.getCol "JIRA ID" = some ids := by
    rw [hm20, getCol_assignScalar_ne m19 (Cell.str "")
      (show ("JIRA ID" : String) ≠ "Request Type" by decide)]
    exact j19
  have sla20 : m20.getCol "Resolution SLA Met?" = m19.getCol "Resolution SLA Met?" := by
    rw [hm20]
    exact getCol_assignScalar_ne m19 (Cell.str "")
      (show ("Resolution SLA Met?" : String) ≠ "Request Type" by decide)
  obtain ⟨m21, hm21⟩ : ∃ m : DataFrame,
      m = m20.assignScalar "Causal Code" (Cell.str "") := ⟨_, rfl⟩
  have l21 : m21.rows.length = df.rows.length := by
    rw [hm21, assignScalar_rows_length]
    exact l20
  have c21 : m21.cols = MSM_FINAL_COLUMN_ORDER.take 21 := by
    rw [hm21, assignScalar_cols, c20]
    decide
  have s21 : m21.getCol "S.No" = m20.getCol "S.No" := by
    rw [hm21]
    exact getCol_assignScalar_ne m20 (Cell.str "")
      (show ("S.No" : String) ≠ "Causal Code" by decide)
  have j21 : m21.getCol "JIRA ID" = some ids := by
    rw [hm21, getCol_assignScalar_ne m20 (Cell.str "")
      (show ("JIRA ID" : String) ≠ "Causal Code" by decide)]
    exact j20
  have sla21 : m21.getCol "Resolution SLA Met?" = m20.getCol "Resolution SLA Met?" := by
    rw [hm21]
    exact getCol_assignScalar_ne m20 (Cell.str "")
      (show ("Resolution SLA Met?" : String) ≠ "Causal Code" by decide)
  obtain ⟨m22, hm22⟩ : ∃ m : DataFrame,
      m = m21.assignScalar "Resolution Code" (Cell.str "") := ⟨_, rfl⟩
  have l22 : m22.rows.length = df.rows.length := by
    rw [hm22, assignScalar_rows_length]
    exact l21
  have c22 : m22.cols = MSM_FINAL_COLUMN_ORDER.take 22 := by
    rw [hm22, assignScalar_cols, c21]
    decide
  have s22 : m22.getCol "S.No" = m21.getCol "S.No" := by
    rw [hm22]
    exact getCol_assignScalar_ne m21 (Cell.str "")
      (show ("S.No" : String) ≠ "Resolution Code" by decide)
  have j22 : m22.getCol "JIRA ID" = some ids := by
    rw [hm22, getCol_assignScalar_ne m21 (Cell.str "")
      (show ("JIRA ID" : String) ≠ "Resolution Code" by decide)]
    exact j21
  have sla22 : m22.getCol "Resolution SLA Met?" = m21.getCol "Resolution SLA Met?" := by
    rw [hm22]
    exact getCol_assignScalar_ne m21 (Cell.str "")
      (show ("Resolution SLA Met?" : String) ≠ "Resolution Code" by decide)
  obtain ⟨m23, hm23⟩ : ∃ m : DataFrame,
      m = m22.assignScalar "High Level Debt Classification" (Cell.str "") := ⟨_, rfl⟩
  have l23 : m23.rows.length = df.rows.length := by
    rw [hm23, assignScalar_rows_length]
    exact l22
  have c23 : m23.cols = MSM_FINAL_COLUMN_ORDER.take 23 := by
    rw [hm23, assignScalar_cols, c22]
    decide
  have s23 : m23.getCol "S.No" = m22.getCol "S.No" := by
    rw [hm23]
    exact getCol_assignScalar_ne m22 (Cell.str "")
      (show ("S.No" : String) ≠ "High Level Debt Classification" by decide)
  have j23 : m23.getCol "JIRA ID" = some ids := by
    rw [hm23, getCol_assignScalar_ne m22 (Cell.str "")
      (show ("JIRA ID" : String) ≠ "High Level Debt Classification" by decide)]
    exact j22
  have sla23 : m23.getCol "Resolution SLA Met?" = m22.getCol "Resolution SLA Met?" := by
    rw [hm23]
    exact getCol_assignScalar_ne m22 (Cell.str "")
      (show ("Resolution SLA Met?" : String) ≠ "High Level Debt Classification" by decide)
  obtain ⟨m24, hm24⟩ : ∃ m : DataFrame,
      m = m23.assignScalar "Technical Debt Classification" (Cell.str "") := ⟨_, rfl⟩
  have l24 : m24.rows.length = df.rows.length := by
    rw [hm24, assignScalar_rows_length]
    exact l23
  have c24 : m24.cols = MSM_FINAL_COLUMN_ORDER.take 24 := by
    rw [hm24, assignScalar_cols, c23]
    decide
  have s24 : m24.getCol "S.No" = m23.getCol "S.No" := by
    rw [hm24]
    exact getCol_assignScalar_ne m23 (Cell.str "")
      (show ("S.No" : String) ≠ "Technical Debt Classification" by decide)
  have j24 : m24.getCol "JIRA ID" = some ids := by
    rw [hm24, getCol_assignScalar_ne m23 (Cell.str "")
      (show ("JIRA ID" : String) ≠ "Technical Debt Classification" by decide)]
    exact j23
  have sla24 : m24.getCol "Resolution SLA Met?" = m23.getCol "Resolution SLA Met?" := by
    rw [hm24]
    exact getCol_assignScalar_ne m23 (Cell.str "")
      (show ("Resolution SLA Met?" : String) ≠ "Technical Debt Classification" by decide)
  obtain ⟨m25, hm25⟩ : ∃ m : DataFrame,
      m = m24.assignScalar "Functional Debt Classification" (Cell.str "") := ⟨_, rfl⟩
  have l25 : m25.rows.length = df.rows.length := by
    rw [hm25, assignScalar_rows_length]
    exact l24
  have c25 : m25.cols = MSM_FINAL_COLUMN_ORDER.take 25 := by
    rw [hm25, assignScalar_cols, c24]
    decide
  have s25 : m25.getCol "S.No" = m24.getCol "S.No" := by
    rw [hm25]
    exact getCol_assignScalar_ne m24 (Cell.str "")
      (show ("S.No" : String) ≠ "Functional Debt Classification" by decide)
  have j25 : m25.getCol "JIRA ID" = some ids := by
    rw [hm25, getCol_assignScalar_ne m24 (Cell.str "")
      (show ("JIRA ID" : String) ≠ "Functional Debt Classification" by decide)]
    exact j24
  have sla25 : m25.getCol "Resolution SLA Met?" = m24.getCol "Resolution SLA Met?" := by
    rw [hm25]
    exact getCol_assignScalar_ne m24 (Cell.str "")
      (show ("Resolution SLA Met?" : String) ≠ "Functional Debt Classification" by decide)
  obtain ⟨m26, hm26⟩ : ∃ m : DataFrame,
      m = m25.assignScalar "Operational Debt Classification" (Cell.str "") := ⟨_, rfl⟩
  have l26 : m26.rows.length = df.rows.length := by
    rw [hm26, assignScalar_rows_length]
    exact l25
  have c26 : m26.cols = MSM_FINAL_COLUMN_ORDER.take 26 := by
    rw [hm26, assignScalar_cols, c25]
    decide
  have s26 : m26.getCol "S.No" = m25.getCol "S.No" := by
    rw [hm26]
    exact getCol_assignScalar_ne m25 (Cell.str "")
      (show ("S.No" : String) ≠ "Operational Debt Classification" by decide)
  have j26 : m26.getCol "JIRA ID" = some ids := by
    rw [hm26, getCol_assignScalar_ne m25 (Cell.str "")
      (show ("JIRA ID" : String) ≠ "Operational Debt Classification" by decide)]
    exact j25
  have sla26 : m26.getCol "Resolution SLA Met?" = m25.getCol "Resolution SLA Met?" := by
    rw [hm26]
    exact getCol_assignScalar_ne m25 (Cell.str "")
      (show ("Resolution SLA Met?" : String) ≠ "Operational Debt Classification" by decide)
  obtain ⟨m27, hm27⟩ : ∃ m : DataFrame,
      m = m26.assignScalar "Knowledge Debt Classification" (Cell.str "") := ⟨_, rfl⟩
  have l27 : m27.rows.length = df.rows.length := by
    rw [hm27, assignScalar_rows_length]
    exact l26
  have c27 : m27.cols = MSM_FINAL_COLUMN_ORDER.take 27 := by
    rw [hm27, assignScalar_cols, c26]
    decide
  have s27 : m27.getCol "S.No" = m26.getCol "S.No" := by
    rw [hm27]
    exact getCol_assignScalar_ne m26 (Cell.str "")
      (show ("S.No" : String) ≠ "Knowledge Debt Classification" by decide)
  have j27 : m27.getCol "JIRA ID" = some ids := by
    rw [hm27, getCol_assignScalar_ne m26 (Cell.str "")
      (show ("JIRA ID" : String) ≠ "Knowledge Debt Classification" by decide)]
    exact j26
  have sla27 : m27.getCol "Resolution SLA Met?" = m26.getCol "Resolution SLA Met?" := by
    rw [hm27]
    exact getCol_assignScalar_ne m26 (Cell.str "")
      (show ("Resolution SLA Met?" : String) ≠ "Knowledge Debt Classification" by decide)
  have happ : apply_msm_transformations df month toNum = assignTimeSpent m27 df toNum := by
    rw [hm27, hm26, hm25, hm24, hm23, hm22, hm21, hm20, hm19, hm18, hm17, hm16, hm15,
      hm14, hm13, hm12, hm11, hm10, hm9, hm8, hm7, hm6, hm5, hm4, hm3, hm2, hm1]
    rfl
  refine ⟨?_, ?_, ?_, ids, hidlen, ?_, ?_⟩
  · rw [happ, assignTimeSpent_cols, c27]
    decide
  · rw [happ]
    exact assignTimeSpent_rows_length m27 df toNum df.rows.length l27 rfl
  · rw [happ, assignTimeSpent_getCol_ne m27 df toNum "S.No" (by decide) l27,
      s27, s26, s25, s24, s23, s22, s21, s20, s19, s18, s17, s16, s15, s14, s13, s12,
      s11, s10, s9, s8, s7, s6, s5, s4, s3, s2]
    exact s1
  · rw [happ, assignTimeSpent_getCol_ne m27 df toNum "JIRA ID" (by decide) l27]
    exact j27
  · rw [happ, assignTimeSpent_getCol_ne m27 df toNum "Resolution SLA Met?" (by decide) l27,
      sla27, sla26, sla25, sla24, sla23, sla22, sla21, sla20, sla19, sla18]
    exact sla17

/- ------------------------------------------------------------------ -/
/- Claim C8: the Resolution SLA field.                                -/
/- ------------------------------------------------------------------ -/

/-- Claim C8: the best-effort schema's Resolution SLA column is computed by
applying the marker test to every derived JIRA ID cell; the result is "Yes"
exactly when the cell's text contains "CSI" after uppercasing (a
case-insensitive containment test) and the literal "NA" otherwise — one of
exactly two literals, never blank; "CSI-102" yields "Yes", "OPS-55" yields
"NA". -/
theorem c8_resolution_sla_marker (df : DataFrame) (month : String)
    (toNum : Cell → Option ℚ) :
    (∃ ids : List Cell,
        (apply_msm_transformations df month toNum).getCol "JIRA ID" = some ids ∧
        (apply_msm_transformations df month toNum).getCol "Resolution SLA Met?" =
          some (ids.map (fun x => Cell.str (resolution_sla x)))) ∧
    (∀ x : Cell, resolution_sla x = "Yes" ∨ resolution_sla x = "NA") ∧
    (∀ x : Cell, resolution_sla x = "Yes" ↔
      strContains (pyUpper (pyStr x)) "CSI" = true) ∧
    (∀ x : Cell, resolution_sla x ≠ "") ∧
    resolution_sla (Cell.str "CSI-102") = "Yes" ∧
    resolution_sla (Cell.str "OPS-55") = "NA" := by
  refine ⟨?_, ?_, ?_, ?_, by decide, by decide⟩
  · obtain ⟨_, _, _, ids, _, hj, hs⟩ := apply_msm_master df month toNum
    exact ⟨ids, hj, hs⟩
  · intro x
    rw [resolution_sla]
    by_cases h : strContains (pyUpper (pyStr x)) "CSI" = true
    · left
      rw [if_pos h]
    · right
      rw [if_neg h]
  · intro x
    rw [resolution_sla]
    by_cases h : strContains (pyUpper (pyStr x)) "CSI" = true
    · simp [h]
    · simp [h]
  · intro x
    rw [resolution_sla]
    by_cases h : strContains (pyUpper (pyStr x)) "CSI" = true
    · simp [h]
    · simp [h]

/-- Witness for C8 at the spec's own examples. -/
theorem c8_resolution_sla_marker_witness :
    resolution_sla (Cell.str "CSI-102") = "Yes" ∧
      resolution_sla (Cell.str "OPS-55") = "NA" :=
  ⟨(c8_resolution_sla_marker ⟨[], []⟩ "January" (fun _ => none)).2.2.2.2.1,
   (c8_resolution_sla_marker ⟨[], []⟩ "January" (fun _ => none)).2.2.2.2.2⟩

/- ------------------------------------------------------------------ -/
/- Claim C9: S.No ordinals are assigned before the validation drop.   -/
/- ------------------------------------------------------------------ -/

lemma insertFold_id (L : List String) : ∀ d : DataFrame, (∀ c ∈ L, c ∈ d.cols) →
    L.foldl (fun d c => if c ∈ d.cols then d else d.assignScalar c (Cell.str "")) d = d := by
  induction L with
  | nil => intro d _; rfl
  | cons t L' ih =>
    intro d h
    rw [List.foldl_cons, if_pos (h t (by simp))]
    exact ih d (fun c hc => h c (List.mem_cons_of_mem _ hc))

lemma filter_map_zip {α : Type} (rows : List α) (u : α → Cell) (g : α → Cell) :
    ((rows.filter (fun r => decide (g r ≠ Cell.na))).map u) =
      (((rows.map u).zip (rows.map g)).filter
        (fun p => decide (p.2 ≠ Cell.na))).map Prod.fst := by
  induction rows with
  | nil => rfl
  | cons r t ih =>
    rw [List.map_cons, List.map_cons, List.zip_cons_cons, List.filter_cons,
      List.filter_cons]
    by_cases h : g r = Cell.na
    · rw [if_neg (by simp [h]), if_neg (by simp [h])]
      exact ih
    · rw [if_pos (by simp [h]), if_pos (by simp [h]), List.map_cons, List.map_cons]
      exact congrArg (List.cons (u r)) ih

lemma filter_of_map {α β : Type} (g : α → β) (p : β → Bool) (l : List α) :
    (l.map g).filter p = (l.filter (fun a => p (g a))).map g := by
  induction l with
  | nil => rfl
  | cons a t ih =>
    rw [List.map_cons, List.filter_cons, List.filter_cons]
    by_cases h : p (g a) = true
    · rw [if_pos h, if_pos h, List.map_cons]
      exact congrArg (List.cons (g a)) ih
    · rw [if_neg h, if_neg h]
      exact ih

def msmGapDemo : DataFrame :=
  ⟨["Issue Key"],
   [[("Issue Key", Cell.str "A-1")],
    [("Issue Key", Cell.na)],
    [("Issue Key", Cell.str "A-3")]]⟩

set_option maxRecDepth 8192 in
/-- Claim C9: the sequential S.No ordinal is assigned over the
pre-validation rows (1..n in input order) before rows with missing JIRA IDs
are dropped, so each surviving row keeps its pre-drop ordinal; on a concrete
input whose middle identifier is missing, the output S.No column is [1, 3]
with only 2 surviving rows out of 3. -/
theorem c9_sno_assigned_before_validation_drop :
    (∀ (df : DataFrame) (month : String) (toNum : Cell → Option ℚ),
        (apply_msm_transformations df month toNum).getCol "S.No" =
          some ((List.range df.rows.length).map (fun (i : ℕ) => Cell.num ((i : ℚ) + 1))) ∧
        ∃ ids : List Cell,
          (apply_msm_transformations df month toNum).getCol "JIRA ID" = some ids ∧
          (validate_msm_data (apply_msm_transformations df month toNum)).getCol "S.No" =
            some ((((List.range df.rows.length).zip ids).filter
                (fun p => decide (p.2 ≠ Cell.na))).map
              (fun p => Cell.num ((p.1 : ℚ) + 1)))) ∧
    (validate_msm_data (apply_msm_transformations msmGapDemo "January"
        (fun _ => none))).getCol "S.No" = some [Cell.num 1, Cell.num 3] ∧
    (validate_msm_data (apply_msm_transformations msmGapDemo "January"
        (fun _ => none))).rows.length = 2 ∧
    msmGapDemo.rows.length = 3 := by
  refine ⟨?_, ?_, ?_, rfl⟩
  · intro df month toNum
    obtain ⟨hcols, hlen, hsno, ids, hidlen, hj, _⟩ := apply_msm_master df month toNum
    obtain ⟨m, hm⟩ : ∃ m : DataFrame, m = apply_msm_transformations df month toNum :=
      ⟨_, rfl⟩
    rw [← hm] at hcols hlen hsno hj ⊢
    refine ⟨hsno, ids, hj, ?_⟩
    have hall : ∀ c ∈ MSM_FINAL_COLUMN_ORDER, c ∈ m.cols := by
      rw [hcols]
      exact fun c hc => hc
    have hjm : "JIRA ID" ∈ m.cols := by
      rw [hcols]
      decide
    have hv : validate_msm_data m = DataFrame.fillnaAll ⟨m.cols,
        m.rows.filter (fun r => decide ((alookup "JIRA ID" r).getD Cell.na ≠ Cell.na))⟩ := by
      rw [validate_msm_data, insertFold_id _ _ hall, DataFrame.dropnaSubset, if_pos hjm]
      rfl
    rw [hv]
    have hcs : "S.No" ∈ (DataFrame.fillnaAll ⟨m.cols,
        m.rows.filter (fun r => decide ((alookup "JIRA ID" r).getD Cell.na ≠ Cell.na))⟩).cols := by
      rw [fillnaAll_cols]
      show "S.No" ∈ m.cols
      rw [hcols]
      decide
    rw [getCol_of_mem hcs, fillnaAll_rows, List.map_map]
    obtain ⟨_, hsvs⟩ := getCol_eq_some hsno
    obtain ⟨_, hjvs⟩ := getCol_eq_some hj
    congr 1
    have hnona : ∀ v ∈ (List.range df.rows.length).map
        (fun (i : ℕ) => Cell.num ((i : ℚ) + 1)), v ≠ Cell.na := by
      intro v hvm
      obtain ⟨i, _, rfl⟩ := List.mem_map.mp hvm
      simp
    have hstep1 : (m.rows.filter
        (fun r => decide ((alookup "JIRA ID" r).getD Cell.na ≠ Cell.na))).map
        ((fun r => (alookup "S.No" r).getD Cell.na) ∘ fillRow) =
        (m.rows.filter
          (fun r => decide ((alookup "JIRA ID" r).getD Cell.na ≠ Cell.na))).map
          (fun r => (alookup "S.No" r).getD Cell.na) := by
      apply List.map_congr_left
      intro r hr
      have hrm : r ∈ m.rows := List.mem_of_mem_filter hr
      have hwv : (alookup "S.No" r).getD Cell.na ≠ Cell.na := by
        apply hnona
        rw [hsvs]
        exact List.mem_map.mpr ⟨r, hrm, rfl⟩
      show (alookup "S.No" (fillRow r)).getD Cell.na = (alookup "S.No" r).getD Cell.na
      rw [alookup_fillRow]
      cases hlk : alookup "S.No" r with
      | none =>
        rw [hlk] at hwv
        simp at hwv
      | some v =>
        rw [hlk] at hwv
        simp only [Option.getD] at hwv ⊢
        show fillCell v = v
        rw [fillCell, if_neg hwv]
    rw [hstep1, filter_map_zip m.rows (fun r => (alookup "S.No" r).getD Cell.na)
      (fun r => (alookup "JIRA ID" r).getD Cell.na), ← hsvs, ← hjvs]
    rw [List.zip_map_left, filter_of_map, List.map_map]
    have hpred : (fun (a : ℕ × Cell) =>
        (fun (p : Cell × Cell) => decide (p.2 ≠ Cell.na)) (Prod.map
          (fun (i : ℕ) => Cell.num ((i : ℚ) + 1)) id a)) =
        (fun (p : ℕ × Cell) => decide (p.2 ≠ Cell.na)) := by
      funext a
      simp [Prod.map]
    have hfun : (Prod.fst ∘ Prod.map (fun (i : ℕ) => Cell.num ((i : ℚ) + 1)) id) =
        (fun (p : ℕ × Cell) => Cell.num ((p.1 : ℚ) + 1)) := by
      funext a
      simp [Prod.map, Function.comp]
    rw [hpred, hfun]
  · have hconc : (validate_msm_data (apply_msm_transformations msmGapDemo "January"
        (fun _ => none))).getCol "S.No" =
        some [Cell.num (((0 : ℕ) : ℚ) + 1), Cell.num (((2 : ℕ) : ℚ) + 1)] := rfl
    rw [hconc]
    norm_num
  · rfl

/- ------------------------------------------------------------------ -/
/- Claim C3, strict side: the normalization map characterization.     -/
/- ------------------------------------------------------------------ -/

lemma strictScanGo_nm (amap : List (String × String))
    (hamap : ∀ k a, alookup k amap = some a → pynorm a = k) :
    ∀ (L : List String) (init : StrictScan),
      (L.map pynorm).Nodup →
      (∀ p ∈ init.normalizationMap, ∀ r ∈ L, ∀ a,
        alookup (pynorm r) amap = some a → p.1 ≠ a) →
      (L.foldl (strictScanStep amap) init).normalizationMap =
        init.normalizationMap ++
          L.filterMap (fun r => (alookup (pynorm r) amap).map (fun a => (a, r))) := by
  intro L
  induction L with
  | nil =>
    intro init _ _
    simp
  | cons r L' ih =>
    intro init hnd hinit
    have hndt : (L'.map pynorm).Nodup := by
      rw [List.map_cons, List.nodup_cons] at hnd
      exact hnd.2
    rw [List.foldl_cons]
    cases hl : alookup (pynorm r) amap with
    | none =>
      have hstep : strictScanStep amap init r =
          ⟨init.usecolsActual, init.normalizationMap, init.missingCols ++ [r]⟩ := by
        rw [strictScanStep, hl]
      rw [hstep, ih _ hndt ?hin]
      · simp [List.filterMap_cons, hl]
      case hin =>
        intro p hp r' hr' a ha
        exact hinit p hp r' (List.mem_cons_of_mem _ hr') a ha
    | some a =>
      have hnotkey : ∀ p ∈ init.normalizationMap, p.1 ≠ a := fun p hp =>
        hinit p hp r (List.mem_cons_self _ _) a hl
      have hstep : strictScanStep amap init r =
          ⟨init.usecolsActual ++ [a], init.normalizationMap ++ [(a, r)],
            init.missingCols⟩ := by
        rw [strictScanStep, hl]
        dsimp only
        rw [upsert_of_not_key hnotkey]
      rw [hstep, ih _ hndt ?hin2]
      · simp [List.filterMap_cons, hl]
      case hin2 =>
        intro p hp r' hr' a' ha'
        rcases List.mem_append.mp hp with hp1 | hp2
        · exact hinit p hp1 r' (List.mem_cons_of_mem _ hr') a' ha'
        · have hpe : p = (a, r) := List.mem_singleton.mp hp2
          subst hpe
          intro hc
          have h1 : pynorm a = pynorm r := hamap _ _ hl
          have h2 : pynorm a' = pynorm r' := hamap _ _ ha'
          have hne : pynorm r ≠ pynorm r' := by
            rw [List.map_cons, List.nodup_cons] at hnd
            intro hq
            exact hnd.1 (hq ▸ List.mem_map.mpr ⟨r', hr', rfl⟩)
          have hc' : a = a' := hc
          exact hne (by rw [← h1, hc']; exact h2)

lemma strict_nm_eq (headers : List String) :
    (strictScan headers).normalizationMap =
      (COLUMN_MAPPING.map Prod.fst).filterMap
        (fun r => (alookup (pynorm r) (actual_col_map headers)).map (fun a => (a, r))) := by
  rw [strictScan, strictScanGo_nm _ ?ha _ _ ?nd ?ini]
  · simp
  case ha =>
    intro k a hka
    exact (alookup_actual_col_map_some hka).1
  case nd => decide
  case ini =>
    intro p hp
    simp at hp

lemma mem_strict_nm {headers : List String} {c f : String} :
    (c, f) ∈ (strictScan headers).normalizationMap ↔
      f ∈ COLUMN_MAPPING.map Prod.fst ∧
        alookup (pynorm f) (actual_col_map headers) = some c := by
  rw [strict_nm_eq, List.mem_filterMap]
  constructor
  · rintro ⟨r, hr, hmap⟩
    cases hl : alookup (pynorm r) (actual_col_map headers) with
    | none =>
      rw [hl] at hmap
      simp at hmap
    | some a =>
      rw [hl] at hmap
      simp only [Option.map_some', Option.some.injEq, Prod.mk.injEq] at hmap
      obtain ⟨hac, hrf⟩ := hmap
      refine ⟨hrf ▸ hr, ?_⟩
      rw [← hrf, hl, hac]
  · rintro ⟨hf, hl⟩
    refine ⟨f, hf, ?_⟩
    rw [hl]
    rfl

lemma required_pynorm_inj : ∀ r1 ∈ COLUMN_MAPPING.map Prod.fst,
    ∀ r2 ∈ COLUMN_MAPPING.map Prod.fst, pynorm r1 = pynorm r2 → r1 = r2 := by decide

/-- The exact (already normalized) aliases of each canonical MSM field: strings
that satisfy that field's branch of the if-chain and no other branch. -/
def msm_alias_exact (f : String) : List String :=
  if f = "Issue Key" then ["issue key", "key"]
  else if f = "Project Name" then ["project name", "project"]
  else if f = "Summary" then ["summary"]
  else if f = "Assignee" then ["assignee"]
  else if f = "Priority" then ["priority"]
  else if f = "Status" then ["status"]
  else if f = "Platform" then ["platform"]
  else if f = "Created" then ["created"]
  else if f = "Updated" then ["updated"]
  else if f = "Resolved" then ["resolved"]
  else if f = "Worklog" then ["worklog", "time spent"]
  else []

lemma msm_alias_unique : ∀ f ∈ msmFieldOrder, ∀ s ∈ msm_alias_exact f,
    msmMatches s f = true ∧ ∀ g ∈ msmFieldOrder, g ≠ f → msmMatches s g = false := by
  decide

lemma find?_eq_of_unique {α : Type} (p : α → Bool) (a : α) :
    ∀ (l : List α), a ∈ l → p a = true → (∀ b ∈ l, p b = true → b = a) →
      l.find? p = some a := by
  intro l
  induction l with
  | nil => intro h; simp at h
  | cons x xs ih =>
    intro hmem hpa huniq
    by_cases hx : p x = true
    · rw [List.find?_cons_of_pos _ hx]
      exact congrArg some (huniq x (List.mem_cons_self _ _) hx)
    · rw [List.find?_cons_of_neg _ (by simpa using hx)]
      have hmem' : a ∈ xs := by
        rcases List.mem_cons.mp hmem with rfl | h
        · exact absurd hpa hx
        · exact h
      exact ih hmem' hpa (fun b hb hpb => huniq b (List.mem_cons_of_mem _ hb) hpb)

lemma msmScanStep_none {st : MsmScan} {col : String}
    (h : msmFieldOrder.find?
      (fun f => !st.foundColumns.contains f && msmMatches (pynorm col) f) = none) :
    msmScanStep st col = st := by
  rw [msmScanStep, h]

lemma msmScanStep_some {st : MsmScan} {col f : String}
    (h : msmFieldOrder.find?
      (fun f => !st.foundColumns.contains f && msmMatches (pynorm col) f) = some f) :
    msmScanStep st col =
      ⟨st.columnsToRead ++ [col], upsert st.columnMap col f, st.foundColumns ++ [f]⟩ := by
  rw [msmScanStep, h]

lemma msmScanStep_found_mono (st : MsmScan) (col : String) {f : String}
    (h : f ∈ st.foundColumns) : f ∈ (msmScanStep st col).foundColumns := by
  cases hfind : msmFieldOrder.find?
      (fun g => !st.foundColumns.contains g && msmMatches (pynorm col) g) with
  | none => rw [msmScanStep_none hfind]; exact h
  | some g =>
    rw [msmScanStep_some hfind]
    exact List.mem_append_left _ h

lemma msmScanGo_found_mono (f : String) :
    ∀ (L : List String) (st : MsmScan), f ∈ st.foundColumns →
      f ∈ (L.foldl msmScanStep st).foundColumns := by
  intro L
  induction L with
  | nil => intro st h; exact h
  | cons c hs ih => intro st h; exact ih _ (msmScanStep_found_mono st c h)

lemma msmScanGo_inv :
    ∀ (L : List String) (st : MsmScan),
      L.Nodup →
      (∀ p ∈ st.columnMap, p.1 ∉ L) →
      ((st.columnMap.map Prod.fst).Nodup) →
      st.columnMap.map Prod.snd = st.foundColumns →
      st.foundColumns.Nodup →
      ((L.foldl msmScanStep st).columnMap.map Prod.fst).Nodup ∧
        (L.foldl msmScanStep st).columnMap.map Prod.snd =
          (L.foldl msmScanStep st).foundColumns ∧
        (L.foldl msmScanStep st).foundColumns.Nodup := by
  intro L
  induction L with
  | nil => intro st _ _ h1 h2 h3; exact ⟨h1, h2, h3⟩
  | cons c hs ih =>
    intro st hnd hkeys h1 h2 h3
    rw [List.nodup_cons] at hnd
    rw [List.foldl_cons]
    cases hfind : msmFieldOrder.find?
        (fun g => !st.foundColumns.contains g && msmMatches (pynorm c) g) with
    | none =>
      rw [msmScanStep_none hfind]
      exact ih st hnd.2 (fun p hp hm => hkeys p hp (List.mem_cons_of_mem _ hm)) h1 h2 h3
    | some f =>
      have hcnot : ∀ p ∈ st.columnMap, p.1 ≠ c := fun p hp hc =>
        hkeys p hp (hc ▸ List.mem_cons_self _ _)
      have hup : upsert st.columnMap c f = st.columnMap ++ [(c, f)] := upsert_of_not_key hcnot
      have hfnot : f ∉ st.foundColumns := by
        have hp := List.find?_some hfind
        simp only [Bool.and_eq_true, Bool.not_eq_true'] at hp
        intro hmem
        have hc : f ∉ st.foundColumns := by simpa using hp.1
        exact hc hmem
      rw [msmScanStep_some hfind]
      refine ih ⟨st.columnsToRead ++ [c], upsert st.columnMap c f, st.foundColumns ++ [f]⟩
        hnd.2 ?_ ?_ ?_ ?_
      · intro p hp hmem
        dsimp only at hp
        rw [hup] at hp
        rcases List.mem_append.mp hp with h | h
        · exact hkeys p h (List.mem_cons_of_mem _ hmem)
        · have hpe : p = (c, f) := by simpa using h
          rw [hpe] at hmem
          exact hnd.1 hmem
      · dsimp only
        rw [hup, List.map_append]
        refine List.Nodup.append h1 (by simp) ?_
        intro x hx1 hx2
        simp only [List.map_cons, List.map_nil, List.mem_singleton] at hx2
        obtain ⟨p, hp, hpx⟩ := List.mem_map.mp hx1
        exact hcnot p hp (hpx.trans hx2)
      · dsimp only
        rw [hup, List.map_append, h2]
        rfl
      · dsimp only
        refine List.Nodup.append h3 (by simp) ?_
        intro x hx1 hx2
        simp only [List.mem_singleton] at hx2
        exact hfnot (hx2 ▸ hx1)

lemma msmScanGo_complete :
    ∀ (L : List String) (st : MsmScan) (f : String), f ∈ msmFieldOrder →
      (∃ h ∈ L, pynorm h ∈ msm_alias_exact f) →
      f ∈ (L.foldl msmScanStep st).foundColumns := by
  intro L
  induction L with
  | nil =>
    intro st f _ hex
    obtain ⟨h, hh, _⟩ := hex
    simp at hh
  | cons c hs ih =>
    intro st f hf hex
    rw [List.foldl_cons]
    by_cases hal : pynorm c ∈ msm_alias_exact f
    · by_cases hfound : f ∈ st.foundColumns
      · exact msmScanGo_found_mono f hs _ (msmScanStep_found_mono st c hfound)
      · have hu := msm_alias_unique f hf (pynorm c) hal
        have hfind : msmFieldOrder.find?
            (fun g => !st.foundColumns.contains g && msmMatches (pynorm c) g) = some f := by
          apply find?_eq_of_unique _ f msmFieldOrder hf
          · simp only [Bool.and_eq_true, Bool.not_eq_true']
            refine ⟨?_, hu.1⟩
            simpa using hfound
          · intro b hb hpb
            by_contra hbf
            have hbz := hu.2 b hb hbf
            simp [hbz] at hpb
        rw [msmScanStep_some hfind]
        apply msmScanGo_found_mono f hs
        show f ∈ st.foundColumns ++ [f]
        exact List.mem_append_right _ (List.mem_singleton.mpr rfl)
    · obtain ⟨h, hh, hhal⟩ := hex
      rcases List.mem_cons.mp hh with rfl | hh2
      · exact absurd hhal hal
      · exact ih (msmScanStep st c) f hf ⟨h, hh2, hhal⟩

lemma msmScan_found_binding {headers : List String} (hnd : headers.Nodup) {f : String}
    (h : f ∈ (msmScan headers).foundColumns) :
    ∃ c, (c, f) ∈ (msmScan headers).columnMap := by
  obtain ⟨-, h2, -⟩ :=
    msmScanGo_inv headers ⟨[], [], []⟩ hnd (by simp) (by simp) rfl (by simp)
  have h' : f ∈ (msmScan headers).columnMap.map Prod.snd := by
    rw [msmScan] at h ⊢
    rw [h2]
    exact h
  obtain ⟨⟨a, b⟩, hp, hpf⟩ := List.mem_map.mp h'
  cases hpf
  exact ⟨a, hp⟩

lemma msmScan_keys_nodup {headers : List String} (hnd : headers.Nodup) :
    ((msmScan headers).columnMap.map Prod.fst).Nodup := by
  obtain ⟨h1, -, -⟩ :=
    msmScanGo_inv headers ⟨[], [], []⟩ hnd (by simp) (by simp) rfl (by simp)
  exact h1

lemma msmScan_vals_nodup {headers : List String} (hnd : headers.Nodup) :
    ((msmScan headers).columnMap.map Prod.snd).Nodup := by
  obtain ⟨-, h2, h3⟩ :=
    msmScanGo_inv headers ⟨[], [], []⟩ hnd (by simp) (by simp) rfl (by simp)
  rw [msmScan, h2]
  exact h3

/-- Claim C3: for every raw header list (with pandas' guarantee of unique
column labels), both header reconcilers build maps in which no source column
is bound to two canonical fields and no canonical field is bound to two
source columns; and whenever every canonical field has a header among its
alias variants, no field is left unbound. The MSM reconciler is
`load_jira_data`'s if-chain scan (first-match-wins in the if-chain's fixed
priority order); the strict reconciler is `load_source_data`'s normalized
lookup against `COLUMN_MAPPING`. -/
theorem c3_reconciliation_map_invariants (headers : List String) (hnd : headers.Nodup) :
    (∀ c f1 f2, (c, f1) ∈ (msmScan headers).columnMap →
        (c, f2) ∈ (msmScan headers).columnMap → f1 = f2) ∧
    (∀ c1 c2 f, (c1, f) ∈ (msmScan headers).columnMap →
        (c2, f) ∈ (msmScan headers).columnMap → c1 = c2) ∧
    ((∀ f ∈ msmFieldOrder, ∃ h ∈ headers, pynorm h ∈ msm_alias_exact f) →
        ∀ f ∈ msmFieldOrder, ∃ c, (c, f) ∈ (msmScan headers).columnMap) ∧
    (∀ c1 c2 f, (c1, f) ∈ (strictScan headers).normalizationMap →
        (c2, f) ∈ (strictScan headers).normalizationMap → c1 = c2) ∧
    (∀ c f1 f2, (c, f1) ∈ (strictScan headers).normalizationMap →
        (c, f2) ∈ (strictScan headers).normalizationMap → f1 = f2) ∧
    ((∀ r ∈ COLUMN_MAPPING.map Prod.fst, ∃ h ∈ headers, pynorm h = pynorm r) →
        ∀ r ∈ COLUMN_MAPPING.map Prod.fst,
          ∃ c, (c, r) ∈ (strictScan headers).normalizationMap) := by
  refine ⟨?_, ?_, ?_, ?_, ?_, ?_⟩
  · intro c f1 f2 h1 h2
    exact nodup_keys_val_eq (msmScan_keys_nodup hnd) h1 h2
  · intro c1 c2 f h1 h2
    exact nodup_vals_key_eq (msmScan_vals_nodup hnd) h1 h2
  · intro hcomp f hf
    exact msmScan_found_binding hnd
      (msmScanGo_complete headers ⟨[], [], []⟩ f hf (hcomp f hf))
  · intro c1 c2 f h1 h2
    rw [mem_strict_nm] at h1 h2
    have := h1.2.symm.trans h2.2
    exact Option.some.inj this
  · intro c f1 f2 h1 h2
    rw [mem_strict_nm] at h1 h2
    have e1 : pynorm c = pynorm f1 := (alookup_actual_col_map_some h1.2).1
    have e2 : pynorm c = pynorm f2 := (alookup_actual_col_map_some h2.2).1
    exact required_pynorm_inj f1 h1.1 f2 h2.1 (e1.symm.trans e2)
  · intro hcomp r hr
    obtain ⟨h, hh, hph⟩ := hcomp r hr
    cases hl : alookup (pynorm r) (actual_col_map headers) with
    | none =>
      exact absurd hph ((alookup_actual_col_map_none_iff _ _).mp hl h hh)
    | some c =>
      exact ⟨c, mem_strict_nm.mpr ⟨hr, hl⟩⟩

/-- C3 witness: at the canonical MSM header list every canonical field ends up
bound to some source column. -/
theorem c3_reconciliation_map_invariants_witness :
    (["Issue Key", "Project Name", "Summary", "Assignee", "Priority", "Status",
      "Platform", "Created", "Updated", "Resolved", "Worklog"] : List String).Nodup ∧
    ∀ f ∈ msmFieldOrder, ∃ c,
      (c, f) ∈ (msmScan ["Issue Key", "Project Name", "Summary", "Assignee", "Priority",
        "Status", "Platform", "Created", "Updated", "Resolved", "Worklog"]).columnMap := by
  refine ⟨by decide, ?_⟩
  exact (c3_reconciliation_map_invariants
    ["Issue Key", "Project Name", "Summary", "Assignee", "Priority", "Status",
     "Platform", "Created", "Updated", "Resolved", "Worklog"] (by decide)).2.2.1 (by decide)
